import Mathlib

/-!
# Verification of the contentful-marketo-ai-bridge activation pipeline

A shallow embedding, in Lean 4, of the core of the repository
`adambalm/contentful-marketo-ai-bridge`: the `/activate` orchestration
endpoint (`backend/main.py`), the Pydantic article validation layer
(`backend/schemas/article.py`), the AI enrichment providers
(`backend/services/ai_service.py`), the enrichment payload schema
(`backend/schemas/enrichment.py`) and the append-only activation audit
log (`backend/services/live_contentful.py`, `backend/main.py`).

Python floats (timestamps, tone scores, similarity ratios) are modelled
as rationals (`ℚ`); Python exceptions are modelled with `Except`/sum
types; the outcomes of external calls (CMS fetch, LLM completion,
marketing-platform dispatch) are inputs to the embedded orchestrator, so
that one Lean function call models one request with a fixed environment
behaviour.
-/

namespace Bridge

/-- Timestamps (Python `time.time()` floats), modelled as rationals. -/
abbrev Time := ℚ

/-! ## Rate limiter (`backend/main.py`, `_is_rate_limited`)

`_client_requests: dict[str, list[float]]` is modelled as a total map
from client IP to timestamp list (missing key ↔ empty list, matching
`_client_requests.get(client_ip, [])`). -/

/-- `_RATE_LIMIT_WINDOW_SEC = 60` from `backend/main.py`. -/
def RATE_LIMIT_WINDOW_SEC : Time := 60

/-- The in-memory rate-limiter state `_client_requests`. -/
structure RateState where
  clientRequests : String → List Time

/-- The initial state: an empty dict, every client has no history. -/
def RateState.empty : RateState := ⟨fun _ => []⟩

/-- Shallow embedding of `_is_rate_limited(client_ip)` from
`backend/main.py`: prune timestamps older than the 60s window, reject
(storing the pruned history) when the pruned history has reached
`maxRequests` (`_RATE_LIMIT_MAX_REQUESTS`), otherwise append `now` and
accept.  Returns the Python function's boolean together with the updated
`_client_requests` state. -/
def isRateLimited (maxRequests : Nat) (st : RateState) (clientIp : String)
    (now : Time) : Bool × RateState :=
  let windowStart := now - RATE_LIMIT_WINDOW_SEC
  let history := st.clientRequests clientIp
  let history := history.filter (fun t => windowStart ≤ t)
  if maxRequests ≤ history.length then
    (true, ⟨fun ip => if ip = clientIp then history else st.clientRequests ip⟩)
  else
    (false, ⟨fun ip => if ip = clientIp then history ++ [now]
                       else st.clientRequests ip⟩)

/-- Run a sequence of requests from one client through the rate limiter,
collecting the `_is_rate_limited` verdict of each request in order. -/
def processRequests (maxRequests : Nat) (clientIp : String) :
    RateState → List Time → RateState × List Bool
  | st, [] => (st, [])
  | st, t :: ts =>
    let (limited, st') := isRateLimited maxRequests st clientIp t
    let (stF, rest) := processRequests maxRequests clientIp st' ts
    (stF, limited :: rest)

/-- Run an arbitrary interleaving of requests (client, time) through the
rate limiter, keeping only the final state: the reachable states of
`_client_requests`. -/
def runRequests (maxRequests : Nat) : RateState → List (String × Time) → RateState
  | st, [] => st
  | st, (ip, t) :: rest =>
    runRequests maxRequests (isRateLimited maxRequests st ip t).2 rest

/-! ## Audit log store (`LiveContentfulService` in
`backend/services/live_contentful.py`)

The JSONL file is modelled as a list of lines; a line either parses as a
record carrying an `entry_id` (plus the rest of the serialized
`ActivationResult`, abstracted as a string) or is malformed. -/

/-- One parsed JSONL audit record: its `entry_id` key plus the remaining
serialized content, abstracted into one string. -/
structure LogRecord where
  entry_id : String
  content : String
deriving DecidableEq

/-- One line of the append-only JSONL file: either it `json.loads` to a
record, or it is malformed (skipped by the reader's `except: continue`). -/
inductive LogLine where
  | record (r : LogRecord)
  | malformed (raw : String)
deriving DecidableEq

/-- `LiveContentfulService.write_activation_log`: append one serialized
record as a new line at the end of the JSONL file. -/
def writeActivationLog (file : List LogLine) (r : LogRecord) : List LogLine :=
  file ++ [LogLine.record r]

/-- `LiveContentfulService.read_latest_activation_log`: scan the lines in
reverse (`for line in reversed(lines)`), skip lines that fail to parse,
and return the first record whose `entry_id` matches. -/
def readLatestActivationLog (file : List LogLine) (entryId : String) :
    Option LogRecord :=
  file.reverse.findSome? fun line =>
    match line with
    | LogLine.record r => if r.entry_id = entryId then some r else none
    | LogLine.malformed _ => none

/-! ## Brand-voice advisory (`backend/main.py`, inside `activate_content`) -/

/-- `tone.get(key, 0)` over the tone-analysis dict, modelled as an
association list. -/
def dictGetQ (d : List (String × ℚ)) (k : String) (dflt : ℚ) : ℚ :=
  match d.find? (fun p => p.1 = k) with
  | some p => p.2
  | none => dflt

/-- The inner `advisory(score)` helper of `activate_content`:
`>= 0.8 → "pass"`, `>= 0.6 → "advisory"`, else `"attention"`. -/
def advisory (score : ℚ) : String :=
  if (8 : ℚ)/10 ≤ score then "pass"
  else if (6 : ℚ)/10 ≤ score then "advisory"
  else "attention"

/-- The `brand_voice` dict computed in `activate_content`. -/
structure BrandVoice where
  professionalism : String
  confidence : String
  action_orientation : String
  overall : String
deriving DecidableEq

/-- The brand-voice block of `activate_content`:
`tone = enrichment_data.get("tone_analysis") or {}`, each score read with
`tone.get(_, 0)`, each mapped through `advisory`, and `overall` mapped
from the mean `(professionalism + confident + action_oriented) / 3.0`. -/
def brandVoiceOf (toneAnalysis : Option (List (String × ℚ))) : BrandVoice :=
  let tone := toneAnalysis.getD []
  let professionalism := dictGetQ tone "professional" 0
  let confident := dictGetQ tone "confident" 0
  let action_oriented := dictGetQ tone "action_oriented" 0
  { professionalism := advisory professionalism
    confidence := advisory confident
    action_orientation := advisory action_oriented
    overall := advisory ((professionalism + confident + action_oriented) / 3) }

/-- The advisory mapping exactly as the specification words it:
`'pass'` when the score is ≥0.8, `'advisory'` when ≥0.6 and <0.8, and
`'attention'` otherwise. -/
def specAdvisoryMap (score : ℚ) : String :=
  if (8 : ℚ)/10 ≤ score then "pass"
  else if (6 : ℚ)/10 ≤ score ∧ score < (8 : ℚ)/10 then "advisory"
  else "attention"

/-! ## `difflib.get_close_matches`

`ArticleIn.validate_controlled_vocabulary` calls
`difflib.get_close_matches(invalid_tag, allowed_tags, n=3, cutoff=0.6)`.
We embed CPython's `difflib` (`SequenceMatcher` with `ratio`,
`quick_ratio`, `real_quick_ratio` and `get_close_matches`) for sequences
with no junk elements.  `SequenceMatcher` is constructed here with
`isjunk=None`, and `autojunk` only marks "popular" elements of sequences
of 200 or more characters, so for the tag strings involved the junk sets
are empty and the junk branches of `find_longest_match` never fire. -/

namespace Difflib

/-- `b2j`: the (increasing) list of positions of character `c` in `b`. -/
def b2j (b : List Char) (c : Char) : List Nat :=
  (List.range b.length).filter (fun j => b.get? j = some c)

/-- One row (one value of `i`) of the dynamic program inside
`SequenceMatcher.find_longest_match`: for each `j` with `b[j] = a[i]` and
`blo ≤ j < bhi`, set `newj2len[j] = j2len.get(j-1, 0) + 1` and update the
running best `(besti, bestj, bestsize)` when the new run is strictly
longer (`if k > bestsize`).  Python's `j2len.get(j-1, 0)` with `j = 0`
looks up key `-1`, which is never present, hence the `j = 0` guard. -/
def fimRow (positions : List Nat) (blo bhi : Nat) (j2len : Nat → Nat)
    (best : Nat × Nat × Nat) (i : Nat) : (Nat → Nat) × (Nat × Nat × Nat) :=
  (positions.filter (fun j => blo ≤ j ∧ j < bhi)).foldl
    (fun acc j =>
      let k := (if j = 0 then 0 else j2len (j - 1)) + 1
      let newj2len := fun j' => if j' = j then k else acc.1 j'
      if acc.2.2.2 < k then (newj2len, (i + 1 - k, j + 1 - k, k))
      else (newj2len, acc.2))
    ((fun _ => 0), best)

/-- The first post-DP `while` loop of `find_longest_match` (with an empty
junk set): extend the best block backwards while `besti > alo`,
`bestj > blo` and `a[besti-1] == b[bestj-1]`. -/
def extendBack (a b : List Char) (alo blo : Nat) (i j k : Nat) :
    Nat × Nat × Nat :=
  if h : alo < i ∧ blo < j ∧ a.get? (i - 1) = b.get? (j - 1) ∧
      (a.get? (i - 1)).isSome then
    extendBack a b alo blo (i - 1) (j - 1) (k + 1)
  else (i, j, k)
termination_by i
decreasing_by exact Nat.sub_lt (Nat.lt_of_le_of_lt (Nat.zero_le _) h.1) Nat.one_pos

/-- The second post-DP `while` loop of `find_longest_match` (with an
empty junk set): extend the best block forwards while
`besti+bestsize < ahi`, `bestj+bestsize < bhi` and
`a[besti+bestsize] == b[bestj+bestsize]`. -/
def extendFwd (a b : List Char) (ahi bhi i j : Nat) (k : Nat) : Nat :=
  if h : i + k < ahi ∧ j + k < bhi ∧ a.get? (i + k) = b.get? (j + k) ∧
      (a.get? (i + k)).isSome then
    extendFwd a b ahi bhi i j (k + 1)
  else k
termination_by ahi - (i + k)
decreasing_by
  have hk : i + k < ahi := h.1
  exact Nat.sub_lt_sub_left hk (by omega)

/-- `SequenceMatcher.find_longest_match(alo, ahi, blo, bhi)` for junk-free
sequences `a`, `b`: returns `(besti, bestj, bestsize)`. -/
def findLongestMatch (a b : List Char) (alo ahi blo bhi : Nat) :
    Nat × Nat × Nat :=
  let run := (List.range' alo (ahi - alo)).foldl
    (fun acc i => fimRow (b2j b (a.getD i default)) blo bhi acc.1 acc.2 i)
    ((fun _ => 0), (alo, blo, 0))
  let best := run.2
  let back := extendBack a b alo blo best.1 best.2.1 best.2.2
  (back.1, back.2.1, extendFwd a b ahi bhi back.1 back.2.1 back.2.2)

/-- The total number of matched elements summed over
`SequenceMatcher.get_matching_blocks()`: the recursive decomposition of
`[alo, ahi) × [blo, bhi)` around the longest match (the merging step of
`get_matching_blocks` only merges adjacent blocks and does not change
this sum).  The recursion consumes fuel; each recursive call strictly
shrinks `(ahi - alo) + (bhi - blo)`, so fuel
`a.length + b.length + 1` (as supplied by `seqMatches`) is never
exhausted. -/
def matchSum (a b : List Char) : Nat → Nat → Nat → Nat → Nat → Nat
  | 0, _, _, _, _ => 0
  | fuel + 1, alo, ahi, blo, bhi =>
    let m := findLongestMatch a b alo ahi blo bhi
    if m.2.2 = 0 then 0
    else
      matchSum a b fuel alo m.1 blo m.2.1 + m.2.2 +
        matchSum a b fuel (m.1 + m.2.2) ahi (m.2.1 + m.2.2) bhi

/-- Total matches `M` for the full sequences, as used by
`SequenceMatcher.ratio()`. -/
def seqMatches (a b : List Char) : Nat :=
  matchSum a b (a.length + b.length + 1) 0 a.length 0 b.length

/-- `difflib._calculate_ratio(matches, length)`:
`2.0 * matches / length` when `length` is nonzero, else `1.0`. -/
def calculateRatio (m len : Nat) : ℚ :=
  if 0 < len then 2 * (m : ℚ) / (len : ℚ) else 1

/-- `SequenceMatcher.ratio()` with `a`, `b` as `seq1`, `seq2`. -/
def sequenceRatio (a b : List Char) : ℚ :=
  calculateRatio (seqMatches a b) (a.length + b.length)

/-- The matched-element count of `SequenceMatcher.quick_ratio()`:
`Σ_c min(count_a(c), count_b(c))`, which is what the `avail`-dict loop of
the Python code computes. -/
def quickRatioMatches (a b : List Char) : Nat :=
  (a.dedup.map (fun c => min (a.count c) (b.count c))).sum

/-- `SequenceMatcher.quick_ratio()`. -/
def quickRatio (a b : List Char) : ℚ :=
  calculateRatio (quickRatioMatches a b) (a.length + b.length)

/-- `SequenceMatcher.real_quick_ratio()`. -/
def realQuickRatio (a b : List Char) : ℚ :=
  calculateRatio (min a.length b.length) (a.length + b.length)

/-- The descending tuple order used by `heapq.nlargest` on
`(ratio, candidate)` pairs: Python tuple `>` compares the ratio first and
falls back to string comparison. -/
def tupleGe (p q : ℚ × String) : Prop :=
  q.1 < p.1 ∨ (p.1 = q.1 ∧ q.2 ≤ p.2)

instance : DecidableRel tupleGe := fun p q => by
  unfold tupleGe; infer_instance

/-- `difflib.get_close_matches(word, possibilities, n, cutoff)`: keep the
candidates whose `real_quick_ratio`, `quick_ratio` and `ratio` against
`word` (candidate as `seq1`, `word` as `seq2`) all reach `cutoff`, order
them by decreasing `(ratio, candidate)` (`heapq.nlargest`), keep the
first `n`, and drop the scores. -/
def getCloseMatches (word : String) (possibilities : List String) (n : Nat)
    (cutoff : ℚ) : List String :=
  let result := possibilities.filter (fun x =>
    cutoff ≤ realQuickRatio x.data word.data ∧
    cutoff ≤ quickRatio x.data word.data ∧
    cutoff ≤ sequenceRatio x.data word.data)
  (((result.map (fun x => (sequenceRatio x.data word.data, x))).insertionSort
      tupleGe).take n).map (fun p => p.2)

end Difflib

/-! ## Validation layer (`backend/schemas/article.py`, `ArticleIn`) -/

/-- The `allowed_tags` controlled vocabulary of
`ArticleIn.validate_controlled_vocabulary`, in source order. -/
def allowedTags : List String :=
  ["product-launch", "thought-leadership", "case-study", "webinar", "ebook",
   "release-notes", "tutorial", "whitepaper", "demo", "blog-post",
   "developer", "marketer", "enterprise", "startup",
   "technical-decision-maker", "content-creator", "product-manager",
   "executive",
   "awareness", "consideration", "decision", "retention", "advocacy",
   "demand-gen", "brand-awareness", "product-adoption", "customer-success",
   "lead-nurture", "competitive-intelligence"]

/-- The structured content of the `ValueError` raised by
`validate_controlled_vocabulary`: the offending tokens
(`invalid_tags = set(v) - allowed_tags`, kept as a duplicate-free list
since Python renders a set), the fuzzy-match `suggestions` dict (only
tokens with a non-empty match list get an entry), and the
`sorted(allowed_tags)` list.  The Python code interpolates these three
values into the message string; the textual rendering of the set is
hash-order dependent, so the error is modelled structurally. -/
structure VocabError where
  invalidTags : List String
  suggestions : List (String × List String)
  validOptions : List String
deriving DecidableEq

/-- `ArticleIn.validate_controlled_vocabulary`: pass the tag list through
unchanged when every tag is in the vocabulary, otherwise raise with the
invalid set, `get_close_matches(tag, allowed_tags, n=3, cutoff=0.6)`
suggestions for each invalid tag that has any, and the sorted
vocabulary. -/
def validateControlledVocabulary (v : List String) :
    Except VocabError (List String) :=
  let invalid := (v.filter (fun t => t ∉ allowedTags)).dedup
  if invalid.isEmpty then .ok v
  else
    .error
      { invalidTags := invalid
        suggestions :=
          (invalid.map
            (fun t => (t, Difflib.getCloseMatches t allowedTags 3 (3/5)))).filter
            (fun p => ¬ p.2.isEmpty)
        validOptions := allowedTags.insertionSort (· ≤ ·) }

/-- A `campaign_tags` validation failure: either the Pydantic
`min_length=1` field constraint, or the controlled-vocabulary
`ValueError`. -/
inductive TagsError where
  | tooShort
  | vocab (e : VocabError)
deriving DecidableEq

/-- The full Pydantic validation of the `campaign_tags` field: the
`Field(min_length=1)` constraint runs first; the `field_validator` only
runs on a value that passed it. -/
def validateCampaignTags (v : List String) : Except TagsError (List String) :=
  if v.length < 1 then .error .tooShort
  else
    match validateControlledVocabulary v with
    | .ok w => .ok w
    | .error e => .error (.vocab e)

/-! ### Python string primitives

Modelled on character lists so that concrete evaluation reduces in the
kernel.  Python's whitespace set is approximated by `Char.isWhitespace`
(space, tab, CR, LF); no string in the repository's constants contains
the exotic whitespace on which the two sets differ. -/

/-- Python slicing `s[:n]`. -/
def pySlice (n : Nat) (s : String) : String := String.mk (s.data.take n)

/-- Python `str.strip()` (no arguments): drop leading and trailing
whitespace. -/
def pyStrip (s : String) : String :=
  String.mk
    (((s.data.dropWhile Char.isWhitespace).reverse.dropWhile
        Char.isWhitespace).reverse)

/-- Python `str.strip(c)` for a single-character argument: drop leading
and trailing copies of `c`. -/
def pyStripChar (c : Char) (s : String) : String :=
  String.mk ((((s.data.dropWhile (· = c))).reverse.dropWhile (· = c)).reverse)

/-- Python `str.lower()`. -/
def pyLower (s : String) : String := String.mk (s.data.map Char.toLower)

/-- Python `str.startswith(pre)`. -/
def pyStartsWith (pre s : String) : Bool := pre.data.isPrefixOf s.data

/-- Python `c in s` for a single character. -/
def pyContainsChar (s : String) (c : Char) : Bool := s.data.contains c

/-- The list underlying Python `s.split(c)` (no maxsplit): split at every
occurrence of `c`, keeping empty parts; always at least one part. -/
def pySplitCharList (c : Char) : List Char → List (List Char)
  | [] => [[]]
  | d :: rest =>
    let r := pySplitCharList c rest
    if d = c then [] :: r
    else
      match r with
      | [] => [[d]]
      | h :: t => (d :: h) :: t

/-- Python `s.split(c)` (no maxsplit). -/
def pySplit (c : Char) (s : String) : List String :=
  (pySplitCharList c s.data).map String.mk

/-- Python `s.split(c, 1)[1]`: everything after the first occurrence of
`c` (callers guard on `c in s`). -/
def pySplitOnceTail (c : Char) (s : String) : String :=
  String.mk ((s.data.dropWhile (· ≠ c)).drop 1)

/-- Like `pySplitCharList`, splitting at every character satisfying `p`. -/
def pySplitPredList (p : Char → Bool) : List Char → List (List Char)
  | [] => [[]]
  | d :: rest =>
    let r := pySplitPredList p rest
    if p d then [] :: r
    else
      match r with
      | [] => [[d]]
      | h :: t => (d :: h) :: t

/-- Python `s.split()` (no arguments): whitespace-run splitting with no
empty parts. -/
def pyWords (s : String) : List String :=
  ((pySplitPredList Char.isWhitespace s.data).map String.mk).filter
    (fun w => !w.data.isEmpty)

/-- Non-overlapping substring occurrences: the scan loop of Python
`s.count(sub)` for non-empty `sub`. -/
def pyCountLoop (sub : List Char) : List Char → Nat
  | [] => 0
  | c :: rest =>
    if sub.isPrefixOf (c :: rest) then
      1 + pyCountLoop sub (rest.drop (sub.length - 1))
    else pyCountLoop sub rest
termination_by l => l.length
decreasing_by
  · simp only [List.length_cons]
    have := List.length_drop (sub.length - 1) rest
    omega
  · simp

/-- Python `s.count(sub)` (an empty pattern counts `len(s) + 1` slots). -/
def pyCount (s sub : String) : Nat :=
  if sub.data.isEmpty then s.data.length + 1
  else pyCountLoop sub.data s.data

/-- Round half to even (Python `round`'s tie rule), on rationals. -/
def roundHalfEven (x : ℚ) : ℤ :=
  let f := ⌊x⌋
  let frac := x - f
  if frac < 1/2 then f
  else if (1 : ℚ)/2 < frac then f + 1
  else if f % 2 = 0 then f else f + 1

/-- Python `round(x, 2)`, modelled exactly on rationals (binary-float
representation artifacts are abstracted away). -/
def pyRound2 (x : ℚ) : ℚ := (roundHalfEven (x * 100) : ℚ) / 100

/-- Python truthiness of an optional string (`not v`): `None` and the
empty string are falsy. -/
def pyStrTruthy : Option String → Bool
  | none => false
  | some s => !s.data.isEmpty

/-- `ArticleIn.validate_alt_text_when_images_present`:
`info.data.get("has_images", False)` and raise when images are claimed
but `not v`.  `dataHasImages` is the value of `"has_images"` in
`info.data`, when present. -/
def validateAltTextWhenImagesPresent (dataHasImages : Option Bool)
    (v : Option String) : Except Unit (Option String) :=
  let has_images := dataHasImages.getD false
  if has_images ∧ ¬ pyStrTruthy v then .error () else .ok v

/-- `ArticleIn.validate_cta_url_format`: `if v and not
v.startswith(("http://", "https://"))` raise. -/
def validateCtaUrlFormat (v : Option String) : Except Unit (Option String) :=
  match v with
  | none => .ok none
  | some u =>
    if pyStrTruthy (some u) ∧
        ¬ (pyStartsWith "http://" u ∨ pyStartsWith "https://" u) then .error ()
    else .ok (some u)

/-- The validated `ArticleIn` model. -/
structure ArticleIn where
  title : String
  body : String
  summary : Option String
  campaign_tags : List String
  alt_text : Option String
  has_images : Bool
  cta_text : Option String
  cta_url : Option String
  content_type : String
deriving DecidableEq

/-- One Pydantic field error of `ArticleIn`. -/
inductive FieldError where
  | titleTooLong
  | bodyTooShort
  | summaryTooLong
  | tagsTooShort
  | tagsVocab (e : VocabError)
  | altTextRequired
  | ctaTextTooLong
  | ctaUrlInvalid
deriving DecidableEq

/-- The keyword arguments `activate_content` passes to `ArticleIn(...)`:
`has_images` already carries the `fields.get("hasImages", False)`
default applied at the call site in `backend/main.py`. -/
structure RawArticleFields where
  title : String
  body : String
  summary : Option String
  campaignTags : List String
  altText : Option String
  hasImages : Bool
  ctaText : Option String
  ctaUrl : Option String
deriving DecidableEq

/-- Pydantic validation of `ArticleIn`, aggregating the field errors.
Fields are validated in declaration order (`title`, `body`, `summary`,
`campaign_tags`, `alt_text`, `has_images`, `cta_text`, `cta_url`,
`content_type`), and a `field_validator`'s `info.data` holds exactly the
already-validated fields.  `alt_text` is declared *before* `has_images`,
so when `validate_alt_text_when_images_present` runs, `info.data` never
contains `"has_images"` — hence the `none` argument below. -/
def validateArticleIn (f : RawArticleFields) :
    Except (List FieldError) ArticleIn :=
  let errs : List FieldError :=
    (if 70 < f.title.length then [FieldError.titleTooLong] else []) ++
    (if f.body.length < 100 then [FieldError.bodyTooShort] else []) ++
    (match f.summary with
     | some s => if 160 < s.length then [FieldError.summaryTooLong] else []
     | none => []) ++
    (match validateCampaignTags f.campaignTags with
     | .ok _ => []
     | .error .tooShort => [FieldError.tagsTooShort]
     | .error (.vocab e) => [FieldError.tagsVocab e]) ++
    (match validateAltTextWhenImagesPresent none f.altText with
     | .ok _ => []
     | .error _ => [FieldError.altTextRequired]) ++
    (match f.ctaText with
     | some s => if 80 < s.length then [FieldError.ctaTextTooLong] else []
     | none => []) ++
    (match validateCtaUrlFormat f.ctaUrl with
     | .ok _ => []
     | .error _ => [FieldError.ctaUrlInvalid])
  if errs.isEmpty then
    .ok
      { title := f.title
        body := f.body
        summary := f.summary
        campaign_tags := f.campaignTags
        alt_text := f.altText
        has_images := f.hasImages
        cta_text := f.ctaText
        cta_url := f.ctaUrl
        content_type := "article" }
  else .error errs

/-! ## Enrichment payload schema (`backend/schemas/enrichment.py`) -/

/-- `AIEnrichmentPayload`.  The dict-valued fields are modelled as
association lists; scores are exact rationals. -/
structure AIEnrichmentPayload where
  seo_score : ℤ
  readability_score : Option ℤ
  suggested_meta_description : String
  keywords : List String
  keyword_density : Option (List (String × ℚ))
  tone_analysis : Option (List (String × ℚ))
  content_gaps : Option (List String)
  error : Option String
  fallback : Option Bool
  provider : Option String
  mock : Option Bool
deriving DecidableEq

/-- The Pydantic field constraints of `AIEnrichmentPayload`:
`seo_score` in `[0, 100]`, `readability_score` in `[0, 100]` when
present, `suggested_meta_description` of length ≤ 160, and between 1 and
7 `keywords`. -/
def AIEnrichmentPayload.schemaValid (p : AIEnrichmentPayload) : Prop :=
  0 ≤ p.seo_score ∧ p.seo_score ≤ 100 ∧
  (∀ r ∈ p.readability_score, 0 ≤ r ∧ r ≤ 100) ∧
  p.suggested_meta_description.length ≤ 160 ∧
  1 ≤ p.keywords.length ∧ p.keywords.length ≤ 7

/-! ## Enrichment providers (`backend/services/ai_service.py`)

Each provider issues two model calls (meta description, keywords).  The
two calls either both succeed, yielding the two raw response strings, or
the first exception aborts the `try` block; `call` carries that outcome.
Everything after the calls is translated from the source. -/

/-- The fallback payload of `OpenAIProvider.enrich_content`'s
`except Exception` handler. -/
def openAIFallbackPayload (title e : String) : AIEnrichmentPayload :=
  { seo_score := 70
    readability_score := none
    suggested_meta_description :=
      pySlice 160 ("Learn about " ++ pyLower title ++
        " and discover actionable insights for your marketing strategy.")
    keywords := ["marketing", "automation", "strategy"]
    keyword_density := none
    tone_analysis := none
    content_gaps := none
    error := some ("OpenAI API error: " ++ e)
    fallback := some true
    provider := none
    mock := none }

/-- The success payload of `OpenAIProvider.enrich_content`: `summary`
and `keywords` are the already-stripped/split response values. -/
def openAISuccessPayload (body summary : String) (keywords : List String) :
    AIEnrichmentPayload :=
  { seo_score := 85
    readability_score := some 78
    suggested_meta_description := pySlice 160 summary
    keywords := keywords.take 7
    keyword_density := some ((keywords.take 3).map (fun kw =>
      (kw, pyRound2 ((pyCount (pyLower body) (pyLower kw) : ℚ) /
        ((pyWords body).length : ℚ) * 100))))
    tone_analysis := some
      [("professional", 9/10), ("confident", 8/10),
       ("action_oriented", 85/100)]
    content_gaps := some
      ["Consider adding more specific metrics",
       "Include customer success examples",
       "Add clearer call-to-action positioning"]
    error := none
    fallback := none
    provider := none
    mock := none }

/-- `OpenAIProvider.enrich_content`.  On success the two message
contents are stripped, the keywords split on commas and trimmed, the
description truncated with `summary[:160]`, keywords with
`keywords[:7]`, and the density map computed over `keywords[:3]`.
Python's division `count / len(body.split())` raises
`ZeroDivisionError` when the body has no words, which the provider's own
`except Exception` turns into the fallback payload.  On any exception
the fixed fallback payload with `fallback=True` and the
`"OpenAI API error: ..."` string is returned. -/
def openAIEnrichContent (title body : String)
    (call : Except String (String × String)) : AIEnrichmentPayload :=
  match call with
  | .error e => openAIFallbackPayload title e
  | .ok (summaryRaw, keywordsRaw) =>
    let summary := pyStrip summaryRaw
    let keywords_text := pyStrip keywordsRaw
    let keywords := (pySplit ',' keywords_text).map pyStrip
    if (pyWords body).length = 0 then
      openAIFallbackPayload title "division by zero"
    else openAISuccessPayload body summary keywords

/-- The fallback payload of `LocalModelProvider.enrich_content`'s
`except Exception` handler. -/
def localFallbackPayload (title e : String) : AIEnrichmentPayload :=
  { seo_score := 70
    readability_score := none
    suggested_meta_description :=
      pySlice 160 ("Learn about " ++ pyLower title ++
        " with our comprehensive guide and expert insights.")
    keywords := ["local", "model", "fallback"]
    keyword_density := none
    tone_analysis := none
    content_gaps := none
    error := some ("Ollama error: " ++ e)
    fallback := some true
    provider := some "ollama"
    mock := none }

/-- The success payload of `LocalModelProvider.enrich_content`:
`summary_text` and `keywords` are the post-processed response values. -/
def localSuccessPayload (modelName body summary_text : String)
    (keywords : List String) : AIEnrichmentPayload :=
  { seo_score := 80
    readability_score := some 75
    suggested_meta_description := pySlice 160 summary_text
    keywords :=
      if ¬ keywords.isEmpty then keywords
      else ["marketing", "content", "automation"]
    keyword_density := some
      (if ¬ keywords.isEmpty then
        ((keywords.take 3).filter (fun kw => !kw.data.isEmpty)).map
          (fun kw =>
            (kw, pyRound2 ((pyCount (pyLower body) kw : ℚ) /
              ((pyWords body).length : ℚ) * 100)))
      else [])
    tone_analysis := some
      [("professional", 8/10), ("confident", 75/100),
       ("action_oriented", 7/10)]
    content_gaps := some
      ["Generated by local Ollama model", "Model: " ++ modelName]
    error := none
    fallback := none
    provider := some "ollama"
    mock := some false }

/-- `LocalModelProvider.enrich_content` (Ollama).  The post-processing
strips a leading `label:` prefix and surrounding quotes from the
responses, lowercases and trims the keywords, drops tokens of length ≤ 2
(`if kw and len(kw) > 2`), keeps at most 7, and substitutes fixed
defaults when none survive.  The density comprehension divides by
`len(body.split())` exactly as the cloud provider does (only reached
when the keyword list is non-empty).  On any exception the fixed
fallback with `provider="ollama"` and `fallback=True` is returned. -/
def localEnrichContent (modelName title body : String)
    (call : Except String (String × String)) : AIEnrichmentPayload :=
  match call with
  | .error e => localFallbackPayload title e
  | .ok (summaryResp, keywordsResp) =>
    let summary_text := pyStrip summaryResp
    let keywords_text := pyStrip keywordsResp
    let summary_text :=
      if pyContainsChar summary_text ':' then
        pyStrip (pySplitOnceTail ':' summary_text)
      else summary_text
    let summary_text := pyStripChar '\'' (pyStripChar '"' summary_text)
    let keywords_text :=
      if pyContainsChar keywords_text ':' then
        pyStrip (pySplitOnceTail ':' keywords_text)
      else keywords_text
    let keywords := (pySplit ',' keywords_text).map
      (fun kw => pyLower (pyStrip kw))
    let keywords := (keywords.filter
      (fun kw => !kw.data.isEmpty ∧ 2 < kw.length)).take 7
    if ¬ keywords.isEmpty ∧ (pyWords body).length = 0 then
      localFallbackPayload title "division by zero"
    else localSuccessPayload modelName body summary_text keywords

/-! ## Orchestration engine (`backend/main.py`, `activate_content`) -/

/-- `ActivationPayload` (`backend/schemas/activation.py`). -/
structure ActivationPayload where
  entry_id : String
  marketo_list_id : String
  enrichment_enabled : Bool
deriving DecidableEq

/-- The `enrichment_data` dict built inside `activate_content`: the
dumped `AIEnrichmentPayload` plus the `generated_alt_text` key (added
only when alt text was generated and truthy) and the `brand_voice`
block. -/
structure EnrichmentData where
  payload : AIEnrichmentPayload
  generated_alt_text : Option String
  brand_voice : BrandVoice
deriving DecidableEq

/-- `ActivationResult` (`backend/schemas/activation.py`).  The
marketing-platform response dict is abstracted to an opaque string; the
timestamp is a rational timestamp. -/
structure ActivationResult where
  activation_id : String
  entry_id : String
  status : String
  processing_time : ℚ
  enrichment_data : Option EnrichmentData
  marketo_response : Option String
  errors : Option (List String)
  timestamp : ℚ
deriving DecidableEq

/-- The behaviour of the external collaborators during one activation:
what `contentful_service.get_article` returns or raises, what
`ai_service.enrich_content` returns or raises, what
`ai_service.generate_alt_text` returns, and what
`marketing_service.add_to_list` returns or raises.  (The two providers'
`enrich_content` never raise on a model-call failure — they return a
fallback payload, see `openAIEnrichContent` — but the orchestrator's
`try` treats any raising call the same way, and the repository's tests
exercise that path by patching `enrich_content` with a side effect.) -/
structure ActivationEnv where
  fetched : Except String RawArticleFields
  enrich : Except String AIEnrichmentPayload
  altText : Option String
  marketing : Except String String

/-- What `activate_content` produces at the HTTP boundary: a re-raised
`HTTPException` (status code and detail) or a 200 response carrying the
`ActivationResult`. -/
inductive Response where
  | http (statusCode : Nat) (detail : String)
  | result (r : ActivationResult)
deriving DecidableEq

/-- The observable effects of one `activate_content` call: the HTTP
outcome, the records appended to the audit JSONL store (by
`append_activation_log` and by
`contentful_service.write_activation_log`, in order — both entry points
append to the `ACTIVATION_LOG_PATH` file), and which external calls were
reached. -/
structure ActivationEffects where
  response : Response
  auditAppends : List ActivationResult
  fetchCalled : Bool
  enrichCalled : Bool
  marketingCalled : Bool
deriving DecidableEq

/-- Decidable equality for `Except` results, used to evaluate the
embedded validators at concrete inputs. -/
instance {ε α : Type} [DecidableEq ε] [DecidableEq α] :
    DecidableEq (Except ε α) := fun x y =>
  match x, y with
  | .ok a, .ok b =>
    if h : a = b then isTrue (congrArg Except.ok h)
    else isFalse (fun hh => h (by injection hh))
  | .error a, .error b =>
    if h : a = b then isTrue (congrArg Except.error h)
    else isFalse (fun hh => h (by injection hh))
  | .ok _, .error _ => isFalse (fun hh => Except.noConfusion hh)
  | .error _, .ok _ => isFalse (fun hh => Except.noConfusion hh)

/-- A human-readable stand-in for `str(e)` of the aggregated Pydantic
`ValidationError` (its exact text is reproduced nowhere in the claims). -/
def renderFieldErrors (errs : List FieldError) : String :=
  toString errs.length ++ " validation error(s) for ArticleIn"

/-- The `ActivationResult` built by the generic `except Exception`
handler of `activate_content`: `status="error"`, no enrichment data, no
platform response, a single `"Processing error: ..."` entry. -/
def processingErrorResult (activationId entryId : String)
    (procTime timestamp : ℚ) (e : String) : ActivationResult :=
  { activation_id := activationId
    entry_id := entryId
    status := "error"
    processing_time := procTime
    enrichment_data := none
    marketo_response := none
    errors := some ["Processing error: " ++ e]
    timestamp := timestamp }

/-- The `ActivationResult` built on the success path of
`activate_content` (`errors` is still empty there, so the
`errors if errors else None` expression yields `None`). -/
def successResult (activationId entryId : String) (procTime timestamp : ℚ)
    (enrichmentData : Option EnrichmentData) (resp : String) :
    ActivationResult :=
  { activation_id := activationId
    entry_id := entryId
    status := "success"
    processing_time := procTime
    enrichment_data := enrichmentData
    marketo_response := some resp
    errors := none
    timestamp := timestamp }

/-- The `status` carried by a 200 response, `none` for a raised
`HTTPException`. -/
def Response.statusOf : Response → Option String
  | .http _ _ => none
  | .result r => some r.status

/-- Shallow embedding of `POST /activate` (`activate_content` in
`backend/main.py`).  Control flow translated step for step:

1. `_is_rate_limited` per client IP; on `True` the 429 `HTTPException`
   is raised and re-raised by `except HTTPException: raise` — note that
   this path appends **no** audit record.
2. `get_article`; a raised exception lands in the generic
   `except Exception` handler, which builds an `error` result (with
   `enrichment_data=None`, `marketo_response=None`), appends it to the
   audit log twice (local JSONL + `write_activation_log`) and returns it.
3. `ArticleIn(...)`; a validation failure appends the message to
   `errors` and raises the 400 `HTTPException`, which is re-raised —
   again appending **no** audit record.
4. If `payload.enrichment_enabled`: `enrich_content` (a raise lands in
   the generic handler — the marketing call is never reached), then the
   conditional `generate_alt_text` (attached only when truthy), then the
   brand-voice block.
5. `add_to_list`; a raise lands in the generic handler.
6. Success: a `success` result, appended to the audit log twice.

`activationId`, `procTime` and `timestamp` stand for `uuid.uuid4()`,
`time.time() - start_time` and `datetime.now(timezone.utc)`. -/
def activateContent (maxRequests : Nat) (payload : ActivationPayload)
    (clientIp : String) (now : Time) (st : RateState) (env : ActivationEnv)
    (activationId : String) (procTime timestamp : ℚ) :
    ActivationEffects × RateState :=
  let (limited, st') := isRateLimited maxRequests st clientIp now
  let errorEffects : String → Bool → Bool → ActivationEffects := fun e enrichCalled marketingCalled =>
    let r := processingErrorResult activationId payload.entry_id procTime
      timestamp e
    { response := .result r
      auditAppends := [r, r]
      fetchCalled := true
      enrichCalled := enrichCalled
      marketingCalled := marketingCalled }
  if limited then
    ({ response := .http 429 "Rate limit exceeded. Please retry later."
       auditAppends := []
       fetchCalled := false
       enrichCalled := false
       marketingCalled := false }, st')
  else
    match env.fetched with
    | .error e => (errorEffects e false false, st')
    | .ok raw =>
      match validateArticleIn raw with
      | .error errs =>
        ({ response := .http 400
             ("Article validation failed: " ++ renderFieldErrors errs)
           auditAppends := []
           fetchCalled := true
           enrichCalled := false
           marketingCalled := false }, st')
      | .ok article =>
        let proceed : Option EnrichmentData → Bool → ActivationEffects :=
          fun enrichmentData enrichCalled =>
            match env.marketing with
            | .error e => errorEffects e enrichCalled true
            | .ok resp =>
              let r := successResult activationId payload.entry_id procTime
                timestamp enrichmentData resp
              { response := .result r
                auditAppends := [r, r]
                fetchCalled := true
                enrichCalled := enrichCalled
                marketingCalled := true }
        if payload.enrichment_enabled then
          match env.enrich with
          | .error e => (errorEffects e true false, st')
          | .ok p =>
            let generated :=
              if article.has_images ∧ ¬ pyStrTruthy article.alt_text then
                env.altText
              else none
            let generatedAltText :=
              if pyStrTruthy generated then generated else none
            let ed : EnrichmentData :=
              { payload := p
                generated_alt_text := generatedAltText
                brand_voice := brandVoiceOf p.tone_analysis }
            (proceed (some ed) true, st')
        else (proceed none false, st')

/-! ## Helper lemmas -/

theorem advisory_eq_specAdvisoryMap (s : ℚ) : advisory s = specAdvisoryMap s := by
  unfold advisory specAdvisoryMap
  by_cases h8 : (8 : ℚ)/10 ≤ s
  · simp [h8]
  · by_cases h6 : (6 : ℚ)/10 ≤ s
    · simp [h8, h6, lt_of_not_ge h8]
    · simp [h8, h6]

theorem pySlice_length_le (n : Nat) (s : String) : (pySlice n s).length ≤ n := by
  show (s.data.take n).length ≤ n
  simp [List.length_take]

theorem pySplitCharList_ne_nil (c : Char) (l : List Char) :
    pySplitCharList c l ≠ [] := by
  induction l with
  | nil => simp [pySplitCharList]
  | cons d rest ih =>
    simp only [pySplitCharList]
    split
    · simp
    · cases h : pySplitCharList c rest with
      | nil => simp
      | cons x t => simp

theorem pySplit_ne_nil (c : Char) (s : String) : pySplit c s ≠ [] := by
  simp [pySplit, pySplitCharList_ne_nil]

/-! ## Claim C8: last-writer-wins read path of the audit log -/

/-- **C8.** For every entry id, after two successive
`write_activation_log` calls for that id,
`read_latest_activation_log(id)` returns the content of the second
(latest) write, not the first: the read is a reverse scan of the
append-only log, last-writer-wins per `entry_id`. -/
theorem writeTwice_readLatest_eq_second (file : List LogLine)
    (r1 r2 : LogRecord) (entryId : String)
    (h1 : r1.entry_id = entryId) (h2 : r2.entry_id = entryId) :
    readLatestActivationLog
      (writeActivationLog (writeActivationLog file r1) r2) entryId = some r2 := by
  simp [readLatestActivationLog, writeActivationLog, h2]

/-- Witness for C8 at a concrete log: two writes for `"e"`, the read
returns the second. -/
theorem writeTwice_readLatest_eq_second_witness :
    (LogRecord.mk "e" "first").entry_id = "e" ∧
    (LogRecord.mk "e" "second").entry_id = "e" ∧
    readLatestActivationLog
      (writeActivationLog
        (writeActivationLog [] (LogRecord.mk "e" "first"))
        (LogRecord.mk "e" "second")) "e" = some (LogRecord.mk "e" "second") :=
  ⟨rfl, rfl,
    writeTwice_readLatest_eq_second [] (LogRecord.mk "e" "first")
      (LogRecord.mk "e" "second") "e" rfl rfl⟩

/-! ## Claim C9: brand-voice advisory thresholds -/

/-- **C9.** For every tone-analysis triple of raw scores in `[0, 1]`,
the brand-voice advisory maps each category score (professionalism,
confidence, action-orientation) to `"pass"` when ≥ 0.8, `"advisory"`
when ≥ 0.6 and < 0.8, `"attention"` otherwise, and the overall verdict
is the same mapping applied to the arithmetic mean of the three raw
scores. -/
theorem brandVoiceOf_spec (p c a : ℚ)
    (hp : 0 ≤ p ∧ p ≤ 1) (hc : 0 ≤ c ∧ c ≤ 1) (ha : 0 ≤ a ∧ a ≤ 1) :
    brandVoiceOf (some
        [("professional", p), ("confident", c), ("action_oriented", a)]) =
      { professionalism := specAdvisoryMap p
        confidence := specAdvisoryMap c
        action_orientation := specAdvisoryMap a
        overall := specAdvisoryMap ((p + c + a) / 3) } := by
  simp [brandVoiceOf, dictGetQ, List.find?, advisory_eq_specAdvisoryMap]

/-- Witness for C9 at scores `(0.9, 0.7, 0.5)`. -/
theorem brandVoiceOf_spec_witness :
    (0 ≤ (9 : ℚ)/10 ∧ (9 : ℚ)/10 ≤ 1) ∧ (0 ≤ (7 : ℚ)/10 ∧ (7 : ℚ)/10 ≤ 1) ∧
    (0 ≤ (5 : ℚ)/10 ∧ (5 : ℚ)/10 ≤ 1) ∧
    brandVoiceOf (some
        [("professional", (9 : ℚ)/10), ("confident", (7 : ℚ)/10),
         ("action_oriented", (5 : ℚ)/10)]) =
      { professionalism := specAdvisoryMap ((9 : ℚ)/10)
        confidence := specAdvisoryMap ((7 : ℚ)/10)
        action_orientation := specAdvisoryMap ((5 : ℚ)/10)
        overall := specAdvisoryMap (((9 : ℚ)/10 + (7 : ℚ)/10 + (5 : ℚ)/10) / 3) } :=
  ⟨⟨by norm_num, by norm_num⟩, ⟨by norm_num, by norm_num⟩,
   ⟨by norm_num, by norm_num⟩,
   brandVoiceOf_spec ((9 : ℚ)/10) ((7 : ℚ)/10) ((5 : ℚ)/10)
     ⟨by norm_num, by norm_num⟩ ⟨by norm_num, by norm_num⟩
     ⟨by norm_num, by norm_num⟩⟩

/-! ### Projection lemmas for the provider payloads -/

theorem openAIEnrichContent_error (title body e : String) :
    openAIEnrichContent title body (.error e) = openAIFallbackPayload title e :=
  rfl

theorem localEnrichContent_error (modelName title body e : String) :
    localEnrichContent modelName title body (.error e) =
      localFallbackPayload title e := rfl

theorem openAISuccessPayload_keywords (body st : String) (kws : List String) :
    (openAISuccessPayload body st kws).keywords = kws.take 7 := rfl

theorem localSuccessPayload_keywords (modelName body st : String)
    (kws : List String) :
    (localSuccessPayload modelName body st kws).keywords =
      if ¬ kws.isEmpty then kws else ["marketing", "content", "automation"] :=
  rfl

theorem openAIFallbackPayload_schemaValid (title e : String) :
    (openAIFallbackPayload title e).schemaValid :=
  ⟨(by decide : (0 : ℤ) ≤ 70), (by decide : (70 : ℤ) ≤ 100),
   (by simp : ∀ r ∈ (none : Option ℤ), 0 ≤ r ∧ r ≤ 100),
   pySlice_length_le 160 _,
   (by decide : 1 ≤ (["marketing", "automation", "strategy"] :
      List String).length),
   (by decide : (["marketing", "automation", "strategy"] :
      List String).length ≤ 7)⟩

theorem localFallbackPayload_schemaValid (title e : String) :
    (localFallbackPayload title e).schemaValid :=
  ⟨(by decide : (0 : ℤ) ≤ 70), (by decide : (70 : ℤ) ≤ 100),
   (by simp : ∀ r ∈ (none : Option ℤ), 0 ≤ r ∧ r ≤ 100),
   pySlice_length_le 160 _,
   (by decide : 1 ≤ (["local", "model", "fallback"] : List String).length),
   (by decide : (["local", "model", "fallback"] : List String).length ≤ 7)⟩

theorem localSuccessPayload_keywords_len (modelName body st : String)
    (kws : List String) (h7 : kws.length ≤ 7) :
    1 ≤ (localSuccessPayload modelName body st kws).keywords.length ∧
    (localSuccessPayload modelName body st kws).keywords.length ≤ 7 := by
  rw [localSuccessPayload_keywords]
  by_cases h : kws.isEmpty
  · rw [if_neg (not_not_intro h)]
    exact ⟨by decide, by decide⟩
  · rw [if_pos h]
    refine ⟨List.length_pos.mpr (fun hl => h ?_), h7⟩
    simp [hl]

theorem take_len_le (n : Nat) (l : List String) : (l.take n).length ≤ n := by
  simp [List.length_take]

theorem openAIEnrichContent_ok (title body s k : String) :
    openAIEnrichContent title body (.ok (s, k)) =
      (if (pyWords body).length = 0 then
        openAIFallbackPayload title "division by zero"
      else
        openAISuccessPayload body (pyStrip s)
          ((pySplit ',' (pyStrip k)).map pyStrip)) := rfl

theorem localEnrichContent_ok (modelName title body s k : String) :
    localEnrichContent modelName title body (.ok (s, k)) =
      (if ¬ (((((pySplit ','
            (if pyContainsChar (pyStrip k) ':' then
              pyStrip (pySplitOnceTail ':' (pyStrip k))
            else pyStrip k)).map
              (fun kw => pyLower (pyStrip kw))).filter
          (fun kw => !kw.data.isEmpty ∧ 2 < kw.length)).take 7)).isEmpty ∧
          (pyWords body).length = 0 then
        localFallbackPayload title "division by zero"
      else
        localSuccessPayload modelName body
          (pyStripChar '\'' (pyStripChar '"'
            (if pyContainsChar (pyStrip s) ':' then
              pyStrip (pySplitOnceTail ':' (pyStrip s))
            else pyStrip s)))
          (((((pySplit ','
            (if pyContainsChar (pyStrip k) ':' then
              pyStrip (pySplitOnceTail ':' (pyStrip k))
            else pyStrip k)).map
              (fun kw => pyLower (pyStrip kw))).filter
          (fun kw => !kw.data.isEmpty ∧ 2 < kw.length)).take 7))) := rfl

theorem openAI_main_bounds (title e' body st : String) (kws : List String)
    (h1 : 1 ≤ kws.length) :
    1 ≤ ((if (pyWords body).length = 0 then openAIFallbackPayload title e'
          else openAISuccessPayload body st kws)).keywords.length ∧
    ((if (pyWords body).length = 0 then openAIFallbackPayload title e'
          else openAISuccessPayload body st kws)).keywords.length ≤ 7 ∧
    ((if (pyWords body).length = 0 then openAIFallbackPayload title e'
          else openAISuccessPayload body st
            kws)).suggested_meta_description.length ≤ 160 := by
  split
  · exact ⟨(openAIFallbackPayload_schemaValid title e').2.2.2.2.1,
           (openAIFallbackPayload_schemaValid title e').2.2.2.2.2,
           pySlice_length_le 160 _⟩
  · refine ⟨?_, ?_, pySlice_length_le 160 _⟩
    · rw [openAISuccessPayload_keywords]
      simp only [List.length_take]
      omega
    · rw [openAISuccessPayload_keywords]
      simp [List.length_take]

theorem local_main_bounds (title e' modelName body st : String)
    (kws : List String) (h7 : kws.length ≤ 7) :
    1 ≤ ((if ¬ kws.isEmpty ∧ (pyWords body).length = 0 then
            localFallbackPayload title e'
          else localSuccessPayload modelName body st kws)).keywords.length ∧
    ((if ¬ kws.isEmpty ∧ (pyWords body).length = 0 then
            localFallbackPayload title e'
          else localSuccessPayload modelName body st kws)).keywords.length
      ≤ 7 ∧
    ((if ¬ kws.isEmpty ∧ (pyWords body).length = 0 then
            localFallbackPayload title e'
          else localSuccessPayload modelName body st
            kws)).suggested_meta_description.length ≤ 160 := by
  split
  · exact ⟨(localFallbackPayload_schemaValid title e').2.2.2.2.1,
           (localFallbackPayload_schemaValid title e').2.2.2.2.2,
           pySlice_length_le 160 _⟩
  · exact ⟨(localSuccessPayload_keywords_len modelName body st kws h7).1,
           (localSuccessPayload_keywords_len modelName body st kws h7).2,
           pySlice_length_le 160 _⟩

/-! ## Claim C6: provider failures degrade to schema-valid fallbacks -/

/-- **C6.** For every article input and for both enrichment providers,
if the underlying model call raises, `enrich_content` does not propagate
the exception but returns a still-schema-valid `EnrichmentResult`
carrying `fallback=true` and a human-readable error string. -/
theorem enrichContent_error_returns_fallback
    (modelName title body e : String) :
    ((openAIEnrichContent title body (.error e)).schemaValid ∧
     (openAIEnrichContent title body (.error e)).fallback = some true ∧
     (openAIEnrichContent title body (.error e)).error =
       some ("OpenAI API error: " ++ e)) ∧
    ((localEnrichContent modelName title body (.error e)).schemaValid ∧
     (localEnrichContent modelName title body (.error e)).fallback = some true ∧
     (localEnrichContent modelName title body (.error e)).error =
       some ("Ollama error: " ++ e)) := by
  rw [openAIEnrichContent_error, localEnrichContent_error]
  exact ⟨⟨openAIFallbackPayload_schemaValid title e, rfl, rfl⟩,
         ⟨localFallbackPayload_schemaValid title e, rfl, rfl⟩⟩

/-! ## Claim C7: keyword-count and description-length bounds -/

/-- **C7 (amended).** For every `EnrichmentResult` produced by either
provider — on any model-call outcome — `keywords` has length between 1
and 7 and `suggested_meta_description` has length at most 160, the
latter by a plain `[:160]` prefix slice.  (The claim's further statement
that a truncation appends a visible ellipsis is refuted by
`truncated_description_has_no_ellipsis`: no ellipsis is ever appended to
the meta description.) -/
theorem enrich_keywords_description_bounds (modelName title body : String)
    (call : Except String (String × String)) :
    (1 ≤ (openAIEnrichContent title body call).keywords.length ∧
     (openAIEnrichContent title body call).keywords.length ≤ 7 ∧
     (openAIEnrichContent title body call).suggested_meta_description.length
       ≤ 160) ∧
    (1 ≤ (localEnrichContent modelName title body call).keywords.length ∧
     (localEnrichContent modelName title body
        call).keywords.length ≤ 7 ∧
     (localEnrichContent modelName title body
        call).suggested_meta_description.length ≤ 160) := by
  constructor
  · cases call with
    | error e =>
      rw [openAIEnrichContent_error]
      exact ⟨(openAIFallbackPayload_schemaValid title e).2.2.2.2.1,
             (openAIFallbackPayload_schemaValid title e).2.2.2.2.2,
             pySlice_length_le 160 _⟩
    | ok pr =>
      obtain ⟨s, k⟩ := pr
      have h1 : 1 ≤ ((pySplit ',' (pyStrip k)).map pyStrip).length := by
        rw [List.length_map]
        exact List.length_pos.mpr (pySplit_ne_nil ',' (pyStrip k))
      rw [openAIEnrichContent_ok]
      exact openAI_main_bounds title "division by zero" body (pyStrip s)
        ((pySplit ',' (pyStrip k)).map pyStrip) h1
  · cases call with
    | error e =>
      rw [localEnrichContent_error]
      exact ⟨(localFallbackPayload_schemaValid title e).2.2.2.2.1,
             (localFallbackPayload_schemaValid title e).2.2.2.2.2,
             pySlice_length_le 160 _⟩
    | ok pr =>
      obtain ⟨s, k⟩ := pr
      rw [localEnrichContent_ok]
      exact local_main_bounds title "division by zero" modelName body _ _
        (take_len_le 7 _)

set_option maxRecDepth 8000 in
/-- **C7 counterexample.** An over-long raw provider description (200
characters) is truncated to a plain 160-character prefix: no ellipsis is
appended (the result neither ends in `"..."` nor contains `'…'`),
refuting the claim's "an ellipsis is visibly appended". -/
theorem truncated_description_has_no_ellipsis :
    (openAIEnrichContent "t" "word w"
        (.ok (String.mk (List.replicate 200 'a'),
          "k1,k2,k3"))).suggested_meta_description =
      String.mk (List.replicate 160 'a') ∧
    160 < (String.mk (List.replicate 200 'a')).length ∧
    ¬ ("...".data.isSuffixOf
        ((openAIEnrichContent "t" "word w"
          (.ok (String.mk (List.replicate 200 'a'),
            "k1,k2,k3"))).suggested_meta_description).data) ∧
    '…' ∉ ((openAIEnrichContent "t" "word w"
        (.ok (String.mk (List.replicate 200 'a'),
          "k1,k2,k3"))).suggested_meta_description).data := by
  refine ⟨by decide, by decide, by decide, by decide⟩

/-! ## Claim C3: the conditional alt-text rule -/

set_option maxRecDepth 8000 in
/-- **C3 (the code at the claim's failing input).** An article with
`has_images=true`, `alt_text=None` and every other field valid
*passes* `ArticleIn` validation: Pydantic v2 runs field validators in
declaration order and `alt_text` is declared before `has_images`, so
`info.data.get("has_images", False)` inside
`validate_alt_text_when_images_present` is always `False` and the rule
never fires — contradicting the validator's own docstring ("Require alt
text when article contains images") and the repository's
`test_activate_validation_failure_missing_alt_text`. -/
theorem missing_alt_text_passes_validation :
    validateArticleIn
      { title := "Test Article"
        body := String.mk (List.replicate 120 'b')
        summary := none
        campaignTags := ["thought-leadership", "marketer"]
        altText := none
        hasImages := true
        ctaText := some "Learn More"
        ctaUrl := some "https://example.com/learn-more" } =
    .ok
      { title := "Test Article"
        body := String.mk (List.replicate 120 'b')
        summary := none
        campaign_tags := ["thought-leadership", "marketer"]
        alt_text := none
        has_images := true
        cta_text := some "Learn More"
        cta_url := some "https://example.com/learn-more"
        content_type := "article" } := by
  decide

/-! ## Path lemmas for `activate_content` -/

theorem activate_path_rateLimited (maxRequests : Nat)
    (payload : ActivationPayload) (clientIp : String) (now : Time)
    (st st' : RateState) (env : ActivationEnv) (aid : String) (pt tsp : ℚ)
    (h : isRateLimited maxRequests st clientIp now = (true, st')) :
    (activateContent maxRequests payload clientIp now st env aid pt tsp).1 =
      { response := .http 429 "Rate limit exceeded. Please retry later."
        auditAppends := []
        fetchCalled := false
        enrichCalled := false
        marketingCalled := false } := by
  simp only [activateContent, h, if_true]

theorem activate_path_fetchError (maxRequests : Nat)
    (payload : ActivationPayload) (clientIp : String) (now : Time)
    (st st' : RateState) (env : ActivationEnv) (aid : String) (pt tsp : ℚ)
    (e : String)
    (hl : isRateLimited maxRequests st clientIp now = (false, st'))
    (hf : env.fetched = .error e) :
    (activateContent maxRequests payload clientIp now st env aid pt tsp).1 =
      { response := .result
          (processingErrorResult aid payload.entry_id pt tsp e)
        auditAppends :=
          [processingErrorResult aid payload.entry_id pt tsp e,
           processingErrorResult aid payload.entry_id pt tsp e]
        fetchCalled := true
        enrichCalled := false
        marketingCalled := false } := by
  simp only [activateContent, hl, hf, if_true, if_false, Bool.false_eq_true]

theorem activate_path_validationError (maxRequests : Nat)
    (payload : ActivationPayload) (clientIp : String) (now : Time)
    (st st' : RateState) (env : ActivationEnv) (aid : String) (pt tsp : ℚ)
    (raw : RawArticleFields) (errs : List FieldError)
    (hl : isRateLimited maxRequests st clientIp now = (false, st'))
    (hf : env.fetched = .ok raw)
    (hv : validateArticleIn raw = .error errs) :
    (activateContent maxRequests payload clientIp now st env aid pt tsp).1 =
      { response := .http 400
          ("Article validation failed: " ++ renderFieldErrors errs)
        auditAppends := []
        fetchCalled := true
        enrichCalled := false
        marketingCalled := false } := by
  simp only [activateContent, hl, hf, hv, if_true, if_false,
    Bool.false_eq_true]

theorem activate_path_enrichRaise (maxRequests : Nat)
    (payload : ActivationPayload) (clientIp : String) (now : Time)
    (st st' : RateState) (env : ActivationEnv) (aid : String) (pt tsp : ℚ)
    (raw : RawArticleFields) (article : ArticleIn) (e : String)
    (hl : isRateLimited maxRequests st clientIp now = (false, st'))
    (hf : env.fetched = .ok raw)
    (hv : validateArticleIn raw = .ok article)
    (he : payload.enrichment_enabled = true)
    (hE : env.enrich = .error e) :
    (activateContent maxRequests payload clientIp now st env aid pt tsp).1 =
      { response := .result
          (processingErrorResult aid payload.entry_id pt tsp e)
        auditAppends :=
          [processingErrorResult aid payload.entry_id pt tsp e,
           processingErrorResult aid payload.entry_id pt tsp e]
        fetchCalled := true
        enrichCalled := true
        marketingCalled := false } := by
  simp only [activateContent, hl, hf, hv, he, hE, if_true, if_false,
    Bool.false_eq_true]

theorem activate_path_success_enriched (maxRequests : Nat)
    (payload : ActivationPayload) (clientIp : String) (now : Time)
    (st st' : RateState) (env : ActivationEnv) (aid : String) (pt tsp : ℚ)
    (raw : RawArticleFields) (article : ArticleIn)
    (p : AIEnrichmentPayload) (resp : String)
    (hl : isRateLimited maxRequests st clientIp now = (false, st'))
    (hf : env.fetched = .ok raw)
    (hv : validateArticleIn raw = .ok article)
    (he : payload.enrichment_enabled = true)
    (hE : env.enrich = .ok p)
    (hm : env.marketing = .ok resp) :
    (activateContent maxRequests payload clientIp now st env aid pt tsp).1 =
      { response := .result (successResult aid payload.entry_id pt tsp
          (some { payload := p
                  generated_alt_text :=
                    if pyStrTruthy (if article.has_images ∧
                        ¬ pyStrTruthy article.alt_text then env.altText
                      else none) then
                      (if article.has_images ∧ ¬ pyStrTruthy article.alt_text
                        then env.altText else none)
                    else none
                  brand_voice := brandVoiceOf p.tone_analysis }) resp)
        auditAppends :=
          [successResult aid payload.entry_id pt tsp
            (some { payload := p
                    generated_alt_text :=
                      if pyStrTruthy (if article.has_images ∧
                          ¬ pyStrTruthy article.alt_text then env.altText
                        else none) then
                        (if article.has_images ∧
                            ¬ pyStrTruthy article.alt_text
                          then env.altText else none)
                      else none
                    brand_voice := brandVoiceOf p.tone_analysis }) resp,
           successResult aid payload.entry_id pt tsp
            (some { payload := p
                    generated_alt_text :=
                      if pyStrTruthy (if article.has_images ∧
                          ¬ pyStrTruthy article.alt_text then env.altText
                        else none) then
                        (if article.has_images ∧
                            ¬ pyStrTruthy article.alt_text
                          then env.altText else none)
                      else none
                    brand_voice := brandVoiceOf p.tone_analysis }) resp]
        fetchCalled := true
        enrichCalled := true
        marketingCalled := true } := by
  simp only [activateContent, hl, hf, hv, he, hE, hm, if_true, if_false,
    Bool.false_eq_true]

theorem activate_path_success_plain (maxRequests : Nat)
    (payload : ActivationPayload) (clientIp : String) (now : Time)
    (st st' : RateState) (env : ActivationEnv) (aid : String) (pt tsp : ℚ)
    (raw : RawArticleFields) (article : ArticleIn) (resp : String)
    (hl : isRateLimited maxRequests st clientIp now = (false, st'))
    (hf : env.fetched = .ok raw)
    (hv : validateArticleIn raw = .ok article)
    (he : payload.enrichment_enabled = false)
    (hm : env.marketing = .ok resp) :
    (activateContent maxRequests payload clientIp now st env aid pt tsp).1 =
      { response := .result
          (successResult aid payload.entry_id pt tsp none resp)
        auditAppends :=
          [successResult aid payload.entry_id pt tsp none resp,
           successResult aid payload.entry_id pt tsp none resp]
        fetchCalled := true
        enrichCalled := false
        marketingCalled := true } := by
  simp only [activateContent, hl, hf, hv, he, hm, Bool.false_eq_true,
    if_false, if_true]

theorem activate_path_marketingError_enriched (maxRequests : Nat)
    (payload : ActivationPayload) (clientIp : String) (now : Time)
    (st st' : RateState) (env : ActivationEnv) (aid : String) (pt tsp : ℚ)
    (raw : RawArticleFields) (article : ArticleIn)
    (p : AIEnrichmentPayload) (e : String)
    (hl : isRateLimited maxRequests st clientIp now = (false, st'))
    (hf : env.fetched = .ok raw)
    (hv : validateArticleIn raw = .ok article)
    (he : payload.enrichment_enabled = true)
    (hE : env.enrich = .ok p)
    (hm : env.marketing = .error e) :
    (activateContent maxRequests payload clientIp now st env aid pt tsp).1 =
      { response := .result
          (processingErrorResult aid payload.entry_id pt tsp e)
        auditAppends :=
          [processingErrorResult aid payload.entry_id pt tsp e,
           processingErrorResult aid payload.entry_id pt tsp e]
        fetchCalled := true
        enrichCalled := true
        marketingCalled := true } := by
  simp only [activateContent, hl, hf, hv, he, hE, hm, if_true, if_false,
    Bool.false_eq_true]

theorem activate_path_marketingError_plain (maxRequests : Nat)
    (payload : ActivationPayload) (clientIp : String) (now : Time)
    (st st' : RateState) (env : ActivationEnv) (aid : String) (pt tsp : ℚ)
    (raw : RawArticleFields) (article : ArticleIn) (e : String)
    (hl : isRateLimited maxRequests st clientIp now = (false, st'))
    (hf : env.fetched = .ok raw)
    (hv : validateArticleIn raw = .ok article)
    (he : payload.enrichment_enabled = false)
    (hm : env.marketing = .error e) :
    (activateContent maxRequests payload clientIp now st env aid pt tsp).1 =
      { response := .result
          (processingErrorResult aid payload.entry_id pt tsp e)
        auditAppends :=
          [processingErrorResult aid payload.entry_id pt tsp e,
           processingErrorResult aid payload.entry_id pt tsp e]
        fetchCalled := true
        enrichCalled := false
        marketingCalled := true } := by
  simp only [activateContent, hl, hf, hv, he, hm, Bool.false_eq_true,
    if_false, if_true]

/-! ## Claim C1: audit-record appends per code path -/

/-- **C1 (amended).** For every `/activate` request: a request that
terminates with a raised `HTTPException` (rate-limit 429 **or
article-validation 400**) appends no audit record at all, while a
request that completes with an `ActivationResult` (success or upstream
failure) appends that exact result once per audit entry point
(`append_activation_log` and `write_activation_log` — two appends to the
shared JSONL store).  In particular an article-validation failure does
**not** produce an audit record (see
`validation_failure_appends_no_audit`). -/
theorem activate_audit_appends_per_path (maxRequests : Nat)
    (payload : ActivationPayload) (clientIp : String) (now : Time)
    (st : RateState) (env : ActivationEnv) (aid : String) (pt tsp : ℚ) :
    (activateContent maxRequests payload clientIp now st env aid pt tsp
        ).1.auditAppends =
      (match (activateContent maxRequests payload clientIp now st env aid pt
          tsp).1.response with
       | .http _ _ => []
       | .result r => [r, r]) := by
  rcases h : isRateLimited maxRequests st clientIp now with ⟨limited, st'⟩
  cases limited with
  | true =>
    rw [activate_path_rateLimited maxRequests payload clientIp now st st' env
      aid pt tsp h]
  | false =>
    cases hf : env.fetched with
    | error e =>
      rw [activate_path_fetchError maxRequests payload clientIp now st st'
        env aid pt tsp e h hf]
    | ok raw =>
      cases hv : validateArticleIn raw with
      | error errs =>
        rw [activate_path_validationError maxRequests payload clientIp now st
          st' env aid pt tsp raw errs h hf hv]
      | ok article =>
        cases he : payload.enrichment_enabled with
        | false =>
          cases hm : env.marketing with
          | error e =>
            rw [activate_path_marketingError_plain maxRequests payload
              clientIp now st st' env aid pt tsp raw article e h hf hv he hm]
          | ok resp =>
            rw [activate_path_success_plain maxRequests payload clientIp now
              st st' env aid pt tsp raw article resp h hf hv he hm]
        | true =>
          cases hE : env.enrich with
          | error e =>
            rw [activate_path_enrichRaise maxRequests payload clientIp now st
              st' env aid pt tsp raw article e h hf hv he hE]
          | ok p =>
            cases hm : env.marketing with
            | error e =>
              rw [activate_path_marketingError_enriched maxRequests payload
                clientIp now st st' env aid pt tsp raw article p e h hf hv he
                hE hm]
            | ok resp =>
              rw [activate_path_success_enriched maxRequests payload clientIp
                now st st' env aid pt tsp raw article p resp h hf hv he hE hm]

set_option maxRecDepth 8000 in
/-- **C1 counterexample.** A concrete request that passes the rate-limit
check and fails article validation (invalid `cta_url`) terminates with
the 400 `HTTPException` and **zero** audit records appended; and a
concrete successful request appends **two** records (one per entry
point).  Both refute "exactly one ActivationResult audit record is
appended ... whichever of success, validation failure, or upstream
failure that path is". -/
theorem validation_failure_appends_no_audit :
    ((activateContent 10 ⟨"e1", "L1", false⟩ "ip" 0 RateState.empty
        { fetched := .ok
            { title := "Test Article"
              body := String.mk (List.replicate 120 'b')
              summary := none
              campaignTags := ["thought-leadership"]
              altText := none
              hasImages := false
              ctaText := none
              ctaUrl := some "invalid-url-format" }
          enrich := .error "unused"
          altText := none
          marketing := .ok "resp" } "aid" 0 0).1.fetchCalled = true) ∧
    ((activateContent 10 ⟨"e1", "L1", false⟩ "ip" 0 RateState.empty
        { fetched := .ok
            { title := "Test Article"
              body := String.mk (List.replicate 120 'b')
              summary := none
              campaignTags := ["thought-leadership"]
              altText := none
              hasImages := false
              ctaText := none
              ctaUrl := some "invalid-url-format" }
          enrich := .error "unused"
          altText := none
          marketing := .ok "resp" } "aid" 0 0).1.response =
      .http 400 "Article validation failed: 1 validation error(s) for ArticleIn") ∧
    ((activateContent 10 ⟨"e1", "L1", false⟩ "ip" 0 RateState.empty
        { fetched := .ok
            { title := "Test Article"
              body := String.mk (List.replicate 120 'b')
              summary := none
              campaignTags := ["thought-leadership"]
              altText := none
              hasImages := false
              ctaText := none
              ctaUrl := some "invalid-url-format" }
          enrich := .error "unused"
          altText := none
          marketing := .ok "resp" } "aid" 0 0).1.auditAppends = []) ∧
    ((activateContent 10 ⟨"e1", "L1", false⟩ "ip" 0 RateState.empty
        { fetched := .ok
            { title := "Test Article"
              body := String.mk (List.replicate 120 'b')
              summary := none
              campaignTags := ["thought-leadership"]
              altText := none
              hasImages := false
              ctaText := none
              ctaUrl := none }
          enrich := .error "unused"
          altText := none
          marketing := .ok "resp" } "aid" 0 0).1.auditAppends.length = 2) := by
  refine ⟨by decide, by decide, by decide, by decide⟩

/-! ## Claim C2: enrichment failure semantics -/

/-- **C2 (amended).** With enrichment enabled: if the enrichment *step*
raises an exception out of `enrich_content`, the failure is recorded as
an activation-level `"Processing error"`, the returned
`ActivationResult` has status `error`, and the marketing-platform
dispatch is skipped.  But a failure of the *underlying provider call* is
caught inside `enrich_content` and converted to a fallback
`EnrichmentResult` (see `enrichContent_error_returns_fallback`), so the
pipeline is **not** short-circuited: for any payload `enrich_content`
returns — the fallback included — the dispatch still runs and the
activation completes with status `success`
(see `provider_call_failure_not_short_circuited`). -/
theorem enrichment_raise_vs_provider_fallback (maxRequests : Nat)
    (payload : ActivationPayload) (clientIp : String) (now : Time)
    (st st' : RateState) (env : ActivationEnv) (aid : String) (pt tsp : ℚ)
    (raw : RawArticleFields) (article : ArticleIn) (e : String)
    (p : AIEnrichmentPayload) (resp : String)
    (hl : isRateLimited maxRequests st clientIp now = (false, st'))
    (hf : env.fetched = .ok raw)
    (hv : validateArticleIn raw = .ok article)
    (he : payload.enrichment_enabled = true) :
    (env.enrich = .error e →
      (activateContent maxRequests payload clientIp now st env aid pt
          tsp).1.response =
        .result (processingErrorResult aid payload.entry_id pt tsp e) ∧
      (processingErrorResult aid payload.entry_id pt tsp e).status =
        "error" ∧
      (processingErrorResult aid payload.entry_id pt tsp e).errors =
        some ["Processing error: " ++ e] ∧
      (activateContent maxRequests payload clientIp now st env aid pt
          tsp).1.marketingCalled = false) ∧
    (env.enrich = .ok p → env.marketing = .ok resp →
      (activateContent maxRequests payload clientIp now st env aid pt
          tsp).1.response.statusOf = some "success" ∧
      (activateContent maxRequests payload clientIp now st env aid pt
          tsp).1.marketingCalled = true) := by
  constructor
  · intro hE
    rw [activate_path_enrichRaise maxRequests payload clientIp now st st' env
      aid pt tsp raw article e hl hf hv he hE]
    exact ⟨rfl, rfl, rfl, rfl⟩
  · intro hE hm
    rw [activate_path_success_enriched maxRequests payload clientIp now st
      st' env aid pt tsp raw article p resp hl hf hv he hE hm]
    exact ⟨rfl, rfl⟩

set_option maxRecDepth 8000 in
/-- **C2 counterexample.** A concrete activation in which the underlying
provider call fails (`enrich_content` returns the fallback payload with
`fallback=true`): the activation is *not* marked `error` and the
marketing dispatch is *not* short-circuited — status is `success` and
`add_to_list` runs, refuting the claim as stated. -/
theorem provider_call_failure_not_short_circuited :
    ((activateContent 10 ⟨"e1", "L1", true⟩ "ip" 0 RateState.empty
        { fetched := .ok
            { title := "Test Article"
              body := String.mk (List.replicate 120 'b')
              summary := none
              campaignTags := ["marketer"]
              altText := none
              hasImages := false
              ctaText := none
              ctaUrl := none }
          enrich := .ok (openAIEnrichContent "Test Article"
            (String.mk (List.replicate 120 'b')) (.error "API down"))
          altText := none
          marketing := .ok "resp" } "aid" 0 0).1.response.statusOf =
      some "success") ∧
    ((activateContent 10 ⟨"e1", "L1", true⟩ "ip" 0 RateState.empty
        { fetched := .ok
            { title := "Test Article"
              body := String.mk (List.replicate 120 'b')
              summary := none
              campaignTags := ["marketer"]
              altText := none
              hasImages := false
              ctaText := none
              ctaUrl := none }
          enrich := .ok (openAIEnrichContent "Test Article"
            (String.mk (List.replicate 120 'b')) (.error "API down"))
          altText := none
          marketing := .ok "resp" } "aid" 0 0).1.marketingCalled = true) ∧
    (openAIEnrichContent "Test Article" (String.mk (List.replicate 120 'b'))
        (.error "API down")).fallback = some true ∧
    (openAIEnrichContent "Test Article" (String.mk (List.replicate 120 'b'))
        (.error "API down")).error = some "OpenAI API error: API down" := by
  refine ⟨by decide, by decide, by decide, by decide⟩

set_option maxRecDepth 8000 in
/-- Witness for C2: at a concrete request, (a) an enrichment-step raise
yields the error result with the marketing call skipped, and (b) the
fallback payload of a failed provider call flows through to a `success`
result with the marketing call made. -/
theorem enrichment_raise_vs_provider_fallback_witness :
    isRateLimited 10 RateState.empty "ip" 0 =
      (false, (isRateLimited 10 RateState.empty "ip" 0).2) ∧
    validateArticleIn
      { title := "Test Article"
        body := String.mk (List.replicate 120 'b')
        summary := none
        campaignTags := ["marketer"]
        altText := none
        hasImages := false
        ctaText := none
        ctaUrl := none } =
      .ok
        { title := "Test Article"
          body := String.mk (List.replicate 120 'b')
          summary := none
          campaign_tags := ["marketer"]
          alt_text := none
          has_images := false
          cta_text := none
          cta_url := none
          content_type := "article" } ∧
    ((activateContent 10 ⟨"e1", "L1", true⟩ "ip" 0 RateState.empty
        { fetched := .ok
            { title := "Test Article"
              body := String.mk (List.replicate 120 'b')
              summary := none
              campaignTags := ["marketer"]
              altText := none
              hasImages := false
              ctaText := none
              ctaUrl := none }
          enrich := .error "AI down"
          altText := none
          marketing := .ok "resp" } "aid" 0 0).1.response =
        .result (processingErrorResult "aid" "e1" 0 0 "AI down") ∧
      (processingErrorResult "aid" "e1" 0 0 "AI down").status = "error" ∧
      (processingErrorResult "aid" "e1" 0 0 "AI down").errors =
        some ["Processing error: AI down"] ∧
      (activateContent 10 ⟨"e1", "L1", true⟩ "ip" 0 RateState.empty
        { fetched := .ok
            { title := "Test Article"
              body := String.mk (List.replicate 120 'b')
              summary := none
              campaignTags := ["marketer"]
              altText := none
              hasImages := false
              ctaText := none
              ctaUrl := none }
          enrich := .error "AI down"
          altText := none
          marketing := .ok "resp" } "aid" 0 0).1.marketingCalled = false) ∧
    ((activateContent 10 ⟨"e1", "L1", true⟩ "ip" 0 RateState.empty
        { fetched := .ok
            { title := "Test Article"
              body := String.mk (List.replicate 120 'b')
              summary := none
              campaignTags := ["marketer"]
              altText := none
              hasImages := false
              ctaText := none
              ctaUrl := none }
          enrich := .ok (openAIFallbackPayload "Test Article" "API down")
          altText := none
          marketing := .ok "resp" } "aid" 0 0).1.response.statusOf =
        some "success" ∧
      (activateContent 10 ⟨"e1", "L1", true⟩ "ip" 0 RateState.empty
        { fetched := .ok
            { title := "Test Article"
              body := String.mk (List.replicate 120 'b')
              summary := none
              campaignTags := ["marketer"]
              altText := none
              hasImages := false
              ctaText := none
              ctaUrl := none }
          enrich := .ok (openAIFallbackPayload "Test Article" "API down")
          altText := none
          marketing := .ok "resp" } "aid" 0 0).1.marketingCalled = true) :=
  ⟨rfl, by decide,
   (enrichment_raise_vs_provider_fallback 10 ⟨"e1", "L1", true⟩ "ip" 0
      RateState.empty _
      { fetched := .ok
          { title := "Test Article"
            body := String.mk (List.replicate 120 'b')
            summary := none
            campaignTags := ["marketer"]
            altText := none
            hasImages := false
            ctaText := none
            ctaUrl := none }
        enrich := .error "AI down"
        altText := none
        marketing := .ok "resp" } "aid" 0 0
      { title := "Test Article"
        body := String.mk (List.replicate 120 'b')
        summary := none
        campaignTags := ["marketer"]
        altText := none
        hasImages := false
        ctaText := none
        ctaUrl := none }
      { title := "Test Article"
        body := String.mk (List.replicate 120 'b')
        summary := none
        campaign_tags := ["marketer"]
        alt_text := none
        has_images := false
        cta_text := none
        cta_url := none
        content_type := "article" }
      "AI down" (openAIFallbackPayload "Test Article" "API down") "resp"
      rfl rfl (by decide) rfl).1 rfl,
   (enrichment_raise_vs_provider_fallback 10 ⟨"e1", "L1", true⟩ "ip" 0
      RateState.empty _
      { fetched := .ok
          { title := "Test Article"
            body := String.mk (List.replicate 120 'b')
            summary := none
            campaignTags := ["marketer"]
            altText := none
            hasImages := false
            ctaText := none
            ctaUrl := none }
        enrich := .ok (openAIFallbackPayload "Test Article" "API down")
        altText := none
        marketing := .ok "resp" } "aid" 0 0
      { title := "Test Article"
        body := String.mk (List.replicate 120 'b')
        summary := none
        campaignTags := ["marketer"]
        altText := none
        hasImages := false
        ctaText := none
        ctaUrl := none }
      { title := "Test Article"
        body := String.mk (List.replicate 120 'b')
        summary := none
        campaign_tags := ["marketer"]
        alt_text := none
        has_images := false
        cta_text := none
        cta_url := none
        content_type := "article" }
      "unused" (openAIFallbackPayload "Test Article" "API down") "resp"
      rfl rfl (by decide) rfl).2 rfl rfl⟩

/-! ## Rate limiter lemmas -/

theorem processRequests_cons (N : Nat) (ip : String) (st : RateState)
    (t : Time) (ts : List Time) :
    processRequests N ip st (t :: ts) =
      ((processRequests N ip (isRateLimited N st ip t).2 ts).1,
       (isRateLimited N st ip t).1 ::
         (processRequests N ip (isRateLimited N st ip t).2 ts).2) := rfl

theorem processRequests_append (N : Nat) (ip : String) (st : RateState)
    (l1 l2 : List Time) :
    processRequests N ip st (l1 ++ l2) =
      ((processRequests N ip (processRequests N ip st l1).1 l2).1,
       (processRequests N ip st l1).2 ++
         (processRequests N ip (processRequests N ip st l1).1 l2).2) := by
  induction l1 generalizing st with
  | nil => simp [processRequests]
  | cons t rest ih =>
    rw [List.cons_append, processRequests_cons, processRequests_cons, ih]
    simp [processRequests_cons]

theorem isRateLimited_accept (N : Nat) (st : RateState) (ip : String)
    (t : Time) (hist : List Time)
    (hstate : st.clientRequests ip = hist)
    (hkeep : ∀ x ∈ hist, t - RATE_LIMIT_WINDOW_SEC ≤ x)
    (hlt : hist.length < N) :
    (isRateLimited N st ip t).1 = false ∧
    (isRateLimited N st ip t).2.clientRequests ip = hist ++ [t] := by
  have hfilter :
      hist.filter (fun x => t - RATE_LIMIT_WINDOW_SEC ≤ x) = hist :=
    List.filter_eq_self.mpr (fun x hx => decide_eq_true (hkeep x hx))
  simp only [isRateLimited, hstate, hfilter]
  rw [if_neg (by omega)]
  exact ⟨rfl, by simp⟩

theorem isRateLimited_reject (N : Nat) (st : RateState) (ip : String)
    (t : Time) (hist : List Time)
    (hstate : st.clientRequests ip = hist)
    (hkeep : ∀ x ∈ hist, t - RATE_LIMIT_WINDOW_SEC ≤ x)
    (hge : N ≤ hist.length) :
    (isRateLimited N st ip t).1 = true ∧
    (isRateLimited N st ip t).2.clientRequests ip = hist := by
  have hfilter :
      hist.filter (fun x => t - RATE_LIMIT_WINDOW_SEC ≤ x) = hist :=
    List.filter_eq_self.mpr (fun x hx => decide_eq_true (hkeep x hx))
  simp only [isRateLimited, hstate, hfilter]
  rw [if_pos (by omega)]
  exact ⟨rfl, by simp⟩

theorem isRateLimited_accept_expired (N : Nat) (st : RateState) (ip : String)
    (t : Time) (hist : List Time)
    (hstate : st.clientRequests ip = hist)
    (hdrop : ∀ x ∈ hist, ¬ (t - RATE_LIMIT_WINDOW_SEC ≤ x))
    (hN : 0 < N) :
    (isRateLimited N st ip t).1 = false ∧
    (isRateLimited N st ip t).2.clientRequests ip = [t] := by
  have hfilter :
      hist.filter (fun x => t - RATE_LIMIT_WINDOW_SEC ≤ x) = [] :=
    List.filter_eq_nil.mpr
      (fun x hx => by simpa using hdrop x hx)
  simp only [isRateLimited, hstate, hfilter]
  rw [if_neg (by simp only [List.length_nil]; omega)]
  exact ⟨rfl, by simp⟩

theorem processRequests_all_accept (N : Nat) (ip : String) (ts : List Time) :
    ∀ (st : RateState) (hist : List Time),
    st.clientRequests ip = hist →
    hist.length + ts.length ≤ N →
    (∀ x ∈ hist ++ ts, ∀ t ∈ ts, t - RATE_LIMIT_WINDOW_SEC ≤ x) →
    (processRequests N ip st ts).2 = List.replicate ts.length false ∧
    (processRequests N ip st ts).1.clientRequests ip = hist ++ ts := by
  induction ts with
  | nil =>
    intro st hist hstate _ _
    simpa [processRequests] using hstate
  | cons t rest ih =>
    intro st hist hstate hlen hkeep
    have hacc := isRateLimited_accept N st ip t hist hstate
      (fun x hx => hkeep x (List.mem_append_left _ hx) t
        (List.mem_cons_self _ _))
      (by simp at hlen; omega)
    have hkeep' : ∀ x ∈ (hist ++ [t]) ++ rest, ∀ u ∈ rest,
        u - RATE_LIMIT_WINDOW_SEC ≤ x := by
      intro x hx u hu
      refine hkeep x ?_ u (List.mem_cons_of_mem _ hu)
      simp only [List.append_assoc, List.singleton_append] at hx
      exact hx
    have hrec := ih (isRateLimited N st ip t).2 (hist ++ [t]) hacc.2
      (by simp at hlen ⊢; omega) hkeep'
    rw [processRequests_cons]
    refine ⟨?_, ?_⟩
    · simp only [List.length_cons, List.replicate_succ]
      rw [hacc.1, hrec.1]
    · rw [hrec.2]
      simp

/-! ## Claim C4: the sliding-window rate limit -/

/-- **C4.** For every client and configured maximum `N > 0`: `N`
requests issued within one 60-second window all pass the rate-limit
check; an `(N+1)`-th request inside the same window is rejected; and a
later request issued after the window has elapsed passes again.
Moreover a rate-limited request is rejected before any external call:
the orchestrator raises the 429 without touching the CMS, the enrichment
provider or the marketing platform. -/
theorem rateLimiter_window_behavior (N : Nat) (hN : 0 < N) (ip : String)
    (ts : List Time) (hlen : ts.length = N) (tBad tNew : Time)
    (hwin : ∀ x ∈ ts, ∀ t ∈ ts ++ [tBad], t - RATE_LIMIT_WINDOW_SEC ≤ x)
    (hnew : ∀ x ∈ ts, x < tNew - RATE_LIMIT_WINDOW_SEC) :
    (processRequests N ip RateState.empty (ts ++ [tBad, tNew])).2 =
      List.replicate N false ++ [true, false] ∧
    (∀ (maxRequests : Nat) (payload : ActivationPayload) (clientIp : String)
       (now : Time) (st st' : RateState) (env : ActivationEnv) (aid : String)
       (pt tsp : ℚ),
      isRateLimited maxRequests st clientIp now = (true, st') →
      (activateContent maxRequests payload clientIp now st env aid pt
          tsp).1.fetchCalled = false ∧
      (activateContent maxRequests payload clientIp now st env aid pt
          tsp).1.enrichCalled = false ∧
      (activateContent maxRequests payload clientIp now st env aid pt
          tsp).1.marketingCalled = false ∧
      (activateContent maxRequests payload clientIp now st env aid pt
          tsp).1.response =
        .http 429 "Rate limit exceeded. Please retry later.") := by
  constructor
  · have hrun := processRequests_all_accept N ip ts RateState.empty []
      rfl (by simp only [List.length_nil]; omega)
      (by intro x hx t ht
          exact hwin x (by simpa using hx) t (List.mem_append_left _ ht))
    have hreject := isRateLimited_reject N (processRequests N ip
        RateState.empty ts).1 ip tBad ts hrun.2
      (fun x hx => hwin x hx tBad (List.mem_append_right _ (by simp)))
      (by omega)
    have hfresh := isRateLimited_accept_expired N
      (isRateLimited N (processRequests N ip RateState.empty ts).1 ip
        tBad).2 ip tNew ts hreject.2
      (fun x hx => by have := hnew x hx; intro hc; exact absurd hc (by
        push_neg; linarith))
      hN
    rw [processRequests_append, hrun.1, hlen]
    congr 1
    rw [processRequests_cons, processRequests_cons]
    simp only [processRequests]
    rw [hreject.1, hfresh.1]
  · intro maxRequests payload clientIp now st st' env aid pt tsp h
    rw [activate_path_rateLimited maxRequests payload clientIp now st st' env
      aid pt tsp h]
    exact ⟨rfl, rfl, rfl, rfl⟩

theorem rateLimiter_window_hself :
    ∀ x ∈ ([0] : List Time), ∀ t ∈ ([0] : List Time) ++ [1],
      t - RATE_LIMIT_WINDOW_SEC ≤ x := by
  intro x hx t ht
  have hx' : x = 0 := by simpa using hx
  have ht' : t = 0 ∨ t = 1 := by simpa using ht
  rcases ht' with rfl | rfl <;> simp [hx', RATE_LIMIT_WINDOW_SEC]

theorem rateLimiter_window_hnew :
    ∀ x ∈ ([0] : List Time), x < 100 - RATE_LIMIT_WINDOW_SEC := by
  intro x hx
  have hx' : x = 0 := by simpa using hx
  simp [hx', RATE_LIMIT_WINDOW_SEC]
  norm_num

/-- Witness for C4: with maximum 1, the request at `t=0` passes, the
second request at `t=1` (same window) is rejected, the request at
`t=100` (window elapsed) passes again; and a concrete rate-limited
request (maximum 0) produces the 429 without reaching any external
call. -/
theorem rateLimiter_window_behavior_witness :
    (0 < 1 ∧ ([0] : List Time).length = 1) ∧
    (processRequests 1 "c" RateState.empty (([0] : List Time) ++ [1, 100])).2 =
      List.replicate 1 false ++ [true, false] ∧
    ((activateContent 0 ⟨"e1", "L1", true⟩ "c" 0 RateState.empty
        { fetched := .error "unused", enrich := .error "unused",
          altText := none, marketing := .error "unused" } "aid" 0
        0).1.fetchCalled = false ∧
      (activateContent 0 ⟨"e1", "L1", true⟩ "c" 0 RateState.empty
        { fetched := .error "unused", enrich := .error "unused",
          altText := none, marketing := .error "unused" } "aid" 0
        0).1.enrichCalled = false ∧
      (activateContent 0 ⟨"e1", "L1", true⟩ "c" 0 RateState.empty
        { fetched := .error "unused", enrich := .error "unused",
          altText := none, marketing := .error "unused" } "aid" 0
        0).1.marketingCalled = false ∧
      (activateContent 0 ⟨"e1", "L1", true⟩ "c" 0 RateState.empty
        { fetched := .error "unused", enrich := .error "unused",
          altText := none, marketing := .error "unused" } "aid" 0
        0).1.response =
        .http 429 "Rate limit exceeded. Please retry later.") :=
  ⟨⟨Nat.one_pos, rfl⟩,
   (rateLimiter_window_behavior 1 Nat.one_pos "c" [0] rfl 1 100
      rateLimiter_window_hself rateLimiter_window_hnew).1,
   (rateLimiter_window_behavior 1 Nat.one_pos "c" [0] rfl 1 100
      rateLimiter_window_hself rateLimiter_window_hnew).2
     0 ⟨"e1", "L1", true⟩ "c" 0 RateState.empty _
     { fetched := .error "unused", enrich := .error "unused",
       altText := none, marketing := .error "unused" } "aid" 0 0 rfl⟩

/-! ## Claim C10: rate-limiter state invariants -/

theorem isRateLimited_preserves_bound (N : Nat) (st : RateState)
    (ip0 : String) (t : Time)
    (h : ∀ ip, (st.clientRequests ip).length ≤ N) :
    ∀ ip, (((isRateLimited N st ip0 t).2).clientRequests ip).length ≤ N := by
  intro ip
  simp only [isRateLimited]
  split
  · rename_i hge
    by_cases hip : ip = ip0
    · subst hip
      simp only [if_pos rfl]
      exact Nat.le_trans (List.length_filter_le _ _) (h ip)
    · simpa [hip] using h ip
  · rename_i hlt
    by_cases hip : ip = ip0
    · subst hip
      simp only [if_pos rfl, if_true, List.length_append,
        List.length_singleton]
      simp only [not_le] at hlt
      omega
    · simpa [hip] using h ip

theorem runRequests_bound (N : Nat) (reqs : List (String × Time)) :
    ∀ st : RateState, (∀ ip, (st.clientRequests ip).length ≤ N) →
    ∀ ip, ((runRequests N st reqs).clientRequests ip).length ≤ N := by
  induction reqs with
  | nil => intro st h ip; simpa [runRequests] using h ip
  | cons r rest ih =>
    intro st h ip
    obtain ⟨ip0, t⟩ := r
    exact ih (isRateLimited N st ip0 t).2
      (isRateLimited_preserves_bound N st ip0 t h) ip

/-- **C10.** The rate limiter's stored per-client history never exceeds
the configured maximum in any state reachable from the empty state, and
a rejected request stores exactly the expired-timestamp-pruned history —
a filter of (hence a sublist of) the previous history, other clients
untouched: a rejected request consumes no quota and never extends the
client's rejection window. -/
theorem rateLimiter_state_invariants :
    (∀ (N : Nat) (reqs : List (String × Time)) (ip : String),
      ((runRequests N RateState.empty reqs).clientRequests ip).length ≤ N) ∧
    (∀ (N : Nat) (st : RateState) (ip : String) (now : Time)
       (st' : RateState),
      isRateLimited N st ip now = (true, st') →
      st'.clientRequests ip =
        (st.clientRequests ip).filter
          (fun t => now - RATE_LIMIT_WINDOW_SEC ≤ t) ∧
      (st'.clientRequests ip).Sublist (st.clientRequests ip) ∧
      ∀ ip', ip' ≠ ip → st'.clientRequests ip' = st.clientRequests ip') := by
  constructor
  · intro N reqs ip
    exact runRequests_bound N reqs RateState.empty
      (fun _ => by simp [RateState.empty]) ip
  · intro N st ip now st' h
    simp only [isRateLimited] at h
    split at h
    · have h2 := congrArg Prod.snd h
      simp only at h2
      subst h2
      refine ⟨by simp, ?_, ?_⟩
      · simpa using List.filter_sublist (st.clientRequests ip)
      · intro ip' hip'
        simp [hip']
    · exact absurd (congrArg Prod.fst h) (by simp)

/-- Witness for C10: with maximum 0, a request from the empty state is
rejected and the stored history stays exactly the pruned (empty)
history; the bound instance holds on a concrete two-request run. -/
theorem rateLimiter_state_invariants_witness :
    (((runRequests 2 RateState.empty [("c", 0), ("c", 1)]).clientRequests
        "c").length ≤ 2) ∧
    isRateLimited 0 RateState.empty "c" 0 =
      (true, (isRateLimited 0 RateState.empty "c" 0).2) ∧
    ((isRateLimited 0 RateState.empty "c" 0).2.clientRequests "c" =
      (RateState.empty.clientRequests "c").filter
        (fun t => 0 - RATE_LIMIT_WINDOW_SEC ≤ t) ∧
    ((isRateLimited 0 RateState.empty "c" 0).2.clientRequests "c").Sublist
      (RateState.empty.clientRequests "c") ∧
    ∀ ip', ip' ≠ "c" →
      (isRateLimited 0 RateState.empty "c" 0).2.clientRequests ip' =
        RateState.empty.clientRequests ip') :=
  ⟨rateLimiter_state_invariants.1 2 [("c", 0), ("c", 1)] "c",
   rfl,
   rateLimiter_state_invariants.2 0 RateState.empty "c" 0
     (isRateLimited 0 RateState.empty "c" 0).2 rfl⟩

/-! ## Claim C5: controlled-vocabulary validation -/

theorem getCloseMatches_length_le (w : String) (ps : List String) (n : Nat)
    (c : ℚ) : (Difflib.getCloseMatches w ps n c).length ≤ n := by
  unfold Difflib.getCloseMatches
  simp [List.length_take]

theorem getCloseMatches_mem (w : String) (ps : List String) (n : Nat)
    (c : ℚ) :
    ∀ s ∈ Difflib.getCloseMatches w ps n c,
      s ∈ ps ∧ c ≤ Difflib.sequenceRatio s.data w.data := by
  intro s hs
  unfold Difflib.getCloseMatches at hs
  simp only [List.mem_map] at hs
  obtain ⟨p, hp, rfl⟩ := hs
  have hp1 : p ∈ (((ps.filter (fun x =>
      c ≤ Difflib.realQuickRatio x.data w.data ∧
      c ≤ Difflib.quickRatio x.data w.data ∧
      c ≤ Difflib.sequenceRatio x.data w.data)).map
        (fun x => (Difflib.sequenceRatio x.data w.data, x))).insertionSort
          Difflib.tupleGe) := List.take_subset _ _ hp
  rw [(List.perm_insertionSort _ _).mem_iff] at hp1
  obtain ⟨x, hx, hpair⟩ := List.mem_map.mp hp1
  obtain ⟨hxps, hxpred⟩ := List.mem_filter.mp hx
  have hxc := of_decide_eq_true hxpred
  rw [← hpair]
  exact ⟨hxps, hxc.2.2⟩

theorem mem_invalidTags (v : List String) (t : String) :
    t ∈ ((v.filter (fun t => t ∉ allowedTags)).dedup) ↔
      t ∈ v ∧ t ∉ allowedTags := by
  simp [List.mem_dedup, List.mem_filter]

theorem validateControlledVocabulary_ok (v : List String)
    (hsub : ∀ t ∈ v, t ∈ allowedTags) :
    validateControlledVocabulary v = .ok v := by
  unfold validateControlledVocabulary
  have hnil : v.filter (fun t => t ∉ allowedTags) = [] :=
    List.filter_eq_nil.mpr (fun a ha => by simpa using hsub a ha)
  have hcond : ((v.filter (fun t => t ∉ allowedTags)).dedup).isEmpty = true := by
    rw [hnil]
    rfl
  rw [if_pos hcond]

theorem validateControlledVocabulary_err (v : List String) (t0 : String)
    (h0 : t0 ∈ v) (h0n : t0 ∉ allowedTags) :
    validateControlledVocabulary v =
      .error
        { invalidTags := (v.filter (fun t => t ∉ allowedTags)).dedup
          suggestions :=
            (((v.filter (fun t => t ∉ allowedTags)).dedup).map
              (fun t =>
                (t, Difflib.getCloseMatches t allowedTags 3 (3/5)))).filter
              (fun p => ¬ p.2.isEmpty)
          validOptions := allowedTags.insertionSort (· ≤ ·) } := by
  unfold validateControlledVocabulary
  have hmem : t0 ∈ ((v.filter (fun t => t ∉ allowedTags)).dedup) :=
    (mem_invalidTags v t0).mpr ⟨h0, h0n⟩
  have hne : ¬ (((v.filter (fun t => t ∉ allowedTags)).dedup).isEmpty
      = true) := by
    rw [List.isEmpty_iff]
    intro hnil
    rw [hnil] at hmem
    exact absurd hmem (List.not_mem_nil t0)
  rw [if_neg hne]

/-- **C5.** For every non-empty `campaign_tags` list that is a subset of
the controlled vocabulary, validation succeeds.  For every list
containing a token outside the vocabulary, validation fails and the
structured error carries: exactly the offending tokens; per offending
token a `get_close_matches(token, allowed_tags, n=3, cutoff=0.6)`
suggestion list — present exactly when non-empty, never longer than 3,
each suggestion drawn from the vocabulary with similarity ratio ≥ 0.6 —
and the full sorted list of valid options. -/
theorem campaignTags_vocabulary_spec (v : List String) (hne : v ≠ []) :
    ((∀ t ∈ v, t ∈ allowedTags) → validateCampaignTags v = .ok v) ∧
    ((∃ t ∈ v, t ∉ allowedTags) →
      ∃ e, validateCampaignTags v = .error (.vocab e)) ∧
    (∀ e, validateCampaignTags v = .error (.vocab e) →
      (∀ t, t ∈ e.invalidTags ↔ t ∈ v ∧ t ∉ allowedTags) ∧
      (∀ t ms, (t, ms) ∈ e.suggestions →
        t ∈ e.invalidTags ∧
        ms = Difflib.getCloseMatches t allowedTags 3 (3/5) ∧ ms ≠ []) ∧
      (∀ t, t ∈ e.invalidTags →
        Difflib.getCloseMatches t allowedTags 3 (3/5) ≠ [] →
        (t, Difflib.getCloseMatches t allowedTags 3 (3/5)) ∈
          e.suggestions) ∧
      (∀ t, t ∈ e.invalidTags →
        (Difflib.getCloseMatches t allowedTags 3 (3/5)).length ≤ 3 ∧
        ∀ s ∈ Difflib.getCloseMatches t allowedTags 3 (3/5),
          s ∈ allowedTags ∧
          (3/5 : ℚ) ≤ Difflib.sequenceRatio s.data t.data) ∧
      e.validOptions.Pairwise (· ≤ ·) ∧
      (∀ t, t ∈ e.validOptions ↔ t ∈ allowedTags)) := by
  have hlen : ¬ v.length < 1 := by
    have := List.length_pos.mpr hne
    omega
  refine ⟨?_, ?_, ?_⟩
  · intro hsub
    unfold validateCampaignTags
    rw [if_neg hlen, validateControlledVocabulary_ok v hsub]
  · rintro ⟨t0, h0, h0n⟩
    exact ⟨_, by
      unfold validateCampaignTags
      rw [if_neg hlen, validateControlledVocabulary_err v t0 h0 h0n]⟩
  · intro e he
    unfold validateCampaignTags at he
    rw [if_neg hlen] at he
    cases hvc : validateControlledVocabulary v with
    | ok w => rw [hvc] at he; exact absurd he (by simp)
    | error e2 =>
      rw [hvc] at he
      have he3 : e2 = e := by
        have hj : TagsError.vocab e2 = TagsError.vocab e :=
          Except.error.inj he
        injection hj
      subst he3
      unfold validateControlledVocabulary at hvc
      dsimp only [] at hvc
      split at hvc
      · exact absurd hvc (by simp)
      · have hrec := Except.error.inj hvc
        subst hrec
        refine ⟨mem_invalidTags v, ?_, ?_, ?_, ?_, ?_⟩
        · intro t ms hms
          obtain ⟨hmem, hpred⟩ := List.mem_filter.mp hms
          obtain ⟨u, hu, hpair⟩ := List.mem_map.mp hmem
          have h1 : u = t := congrArg Prod.fst hpair
          have h2 : Difflib.getCloseMatches u allowedTags 3 (3/5) = ms :=
            congrArg Prod.snd hpair
          subst h1
          refine ⟨hu, h2.symm, ?_⟩
          have := of_decide_eq_true hpred
          simp only [h2] at this
          intro hnil
          rw [hnil] at this
          simp at this
        · intro t ht hne'
          refine List.mem_filter.mpr ⟨List.mem_map.mpr ⟨t, ht, rfl⟩, ?_⟩
          refine decide_eq_true ?_
          simp only [Bool.not_eq_true, List.isEmpty_iff]
          exact hne'
        · intro t _
          exact ⟨getCloseMatches_length_le t allowedTags 3 (3/5),
            fun s hs =>
              ⟨(getCloseMatches_mem t allowedTags 3 (3/5) s hs).1,
               (getCloseMatches_mem t allowedTags 3 (3/5) s hs).2⟩⟩
        · exact List.sorted_insertionSort _ _
        · intro t
          exact (List.perm_insertionSort _ _).mem_iff

/-- Witness for C5 at the one-element tag list `["bad-tag"]`: the list
is non-empty, it contains a token outside the vocabulary, so validation
fails with a structured vocabulary error. -/
theorem campaignTags_vocabulary_spec_witness :
    (["bad-tag"] : List String) ≠ [] ∧
    (∃ t ∈ (["bad-tag"] : List String), t ∉ allowedTags) ∧
    ∃ e, validateCampaignTags ["bad-tag"] = .error (.vocab e) :=
  ⟨by decide, ⟨"bad-tag", by decide, by decide⟩,
   (campaignTags_vocabulary_spec ["bad-tag"] (by decide)).2.1
     ⟨"bad-tag", by decide, by decide⟩⟩

end Bridge
